import Mathlib

/-!
# Verification of the mundi.ai layer ingestion pipeline

Shallow embedding of the layer ingestion subsystem of the repository
(`src/routes/postgres_routes.py`, `src/routes/layer_router.py`) and proofs
about it.  External collaborators (DNS, the `ipaddress` library, fiona/GDAL,
subprocesses, S3, the database) are modelled as oracle parameters recording
the outcome of each call; the control flow, string handling and arithmetic
of the repository's own code are embedded directly.

String primitives used by the Python code (`startswith`, `replace`,
`lower`, `strip`, `in`, `os.path.splitext`, `pathlib.Path(...).suffix`) are
re-implemented over `List Char` so that every definition evaluates inside
the kernel.
-/

namespace Mundi

/-! ## String primitives (Python string semantics over `List Char`) -/

/-- Python `s.startswith(pre)`. -/
def strStartsWith (s pre : String) : Bool :=
  pre.data.isPrefixOf s.data

/-- Fuelled scanner for Python `str.replace`: replace every non-overlapping
occurrence of `pat`, scanning left to right.  Each step consumes at least one
input character, so fuel equal to the input length is always sufficient. -/
def replaceFuel (pat rep : List Char) : Nat → List Char → List Char
  | 0, l => l
  | _ + 1, [] => []
  | n + 1, c :: rest =>
    if pat ≠ [] ∧ pat.isPrefixOf (c :: rest) then
      rep ++ replaceFuel pat rep n ((c :: rest).drop pat.length)
    else
      c :: replaceFuel pat rep n rest

/-- Python `str.replace` on character lists. -/
def replaceAllL (pat rep : List Char) (l : List Char) : List Char :=
  replaceFuel pat rep l.length l

/-- Python `s.replace(pat, rep)` (all occurrences). -/
def strReplace (s pat rep : String) : String :=
  String.mk (replaceAllL pat.data rep.data s.data)

/-- ASCII lower-casing of one character, as Python `str.lower` acts on the
ASCII identifiers this code compares. -/
def asciiLower (c : Char) : Char :=
  if 'A' ≤ c ∧ c ≤ 'Z' then Char.ofNat (c.toNat + 32) else c

/-- ASCII upper-casing of one character. -/
def asciiUpper (c : Char) : Char :=
  if 'a' ≤ c ∧ c ≤ 'z' then Char.ofNat (c.toNat - 32) else c

/-- Python `s.lower()` (ASCII range). -/
def strLower (s : String) : String :=
  String.mk (s.data.map asciiLower)

/-- Python `s.upper()` (ASCII range). -/
def strUpper (s : String) : String :=
  String.mk (s.data.map asciiUpper)

/-- Whitespace recognised by Python `str.strip()`. -/
def isPySpace (c : Char) : Bool :=
  c = ' ' ∨ c = '\t' ∨ c = '\n' ∨ c = '\r'

/-- Python `s.strip()`. -/
def strStrip (s : String) : String :=
  String.mk (((s.data.dropWhile isPySpace).reverse.dropWhile isPySpace).reverse)

/-- Python `needle in hay` on strings. -/
def strContains (hay needle : String) : Bool :=
  (List.range (hay.data.length + 1)).any fun i =>
    needle.data.isPrefixOf (hay.data.drop i)

/-- Split a character list on a separator character. -/
def splitOnCharL (sep : Char) : List Char → List (List Char)
  | [] => [[]]
  | c :: rest =>
    let r := splitOnCharL sep rest
    if c = sep then [] :: r
    else
      match r with
      | [] => [[c]]
      | g :: gs => (c :: g) :: gs

/-- Final path component: the part of the string after the last `/`. -/
def lastComponent (s : String) : String :=
  String.mk ((splitOnCharL '/' s.data).getLastD [])

/-- Extension as computed by Python `os.path.splitext(name)[1]`: the part of
`name` from its last dot, unless every character before that dot is itself a
dot (leading-dot names have no extension). -/
def splitextExt (name : String) : String :=
  match splitOnCharL '.' name.data with
  | [] => ""
  | [_] => ""
  | parts =>
    if (parts.dropLast).all (· = []) then ""
    else String.mk ('.' :: parts.getLastD [])

/-- Extension as computed by Python `pathlib.Path(p).suffix`: the final
component's substring from its last dot, provided that dot is neither the
first nor the last character of the component. -/
def pathSuffix (p : String) : String :=
  let cs := (lastComponent p).data
  let n := cs.length
  match ((List.range n).filter fun i => cs.getD i ' ' = '.').getLast? with
  | none => ""
  | some i => if 0 < i ∧ i < n - 1 then String.mk (cs.drop i) else ""

/-! ## SSRF guard: `validate_remote_url` (postgres_routes.py lines 93-202) -/

/-- Classification of one resolved address, as reported by the Python
`ipaddress` library for a parsed IP (an external collaborator). -/
structure IpProps where
  is_private : Bool
  is_loopback : Bool
  is_link_local : Bool
  is_multicast : Bool
  deriving Repr, DecidableEq

/-- Oracle for the network-facing collaborators of `validate_remote_url`:
`urlparse(...).hostname` (with `.error` for a parse exception and
`.ok none` for a missing hostname), `socket.getaddrinfo` (with `.error`
for `gaierror`), and `ipaddress.ip_address` (with `none` for a
`ValueError`). -/
structure NetEnv where
  hostnameOf : String → Except Unit (Option String)
  resolve : String → Except Unit (List String)
  ipParse : String → Option IpProps

/-- The fixed deny-list of cloud metadata addresses
(postgres_routes.py lines 174-178). -/
def cloud_metadata_ips : List String :=
  ["169.254.169.254", "169.254.170.2", "100.100.100.200"]

/-- Body of the per-address loop of `validate_remote_url`
(postgres_routes.py lines 141-190): the first check that fires produces the
rejection detail. -/
def checkIp (env : NetEnv) (ip_str : String) : Option String :=
  match env.ipParse ip_str with
  | none => some ("Invalid IP address format: " ++ ip_str)
  | some ip =>
    if ip.is_private then
      some ("Access to private IP addresses is not allowed: " ++ ip_str)
    else if ip.is_loopback then
      some ("Access to loopback addresses is not allowed: " ++ ip_str)
    else if ip.is_link_local then
      some ("Access to link-local addresses is not allowed: " ++ ip_str)
    else if ip.is_multicast then
      some ("Access to multicast addresses is not allowed: " ++ ip_str)
    else if ip_str ∈ cloud_metadata_ips then
      some ("Access to cloud metadata endpoints is not allowed: " ++ ip_str)
    else
      none

/-- The loop over every resolved address: the first rejecting address wins. -/
def checkIps (env : NetEnv) : List String → Option String
  | [] => none
  | ip :: ips =>
    match checkIp env ip with
    | some d => some d
    | none => checkIps env ips

/-- The inner URL actually checked by the guard: for `sheets` sources the
`CSV:/vsicurl/` wrapper is stripped first
(postgres_routes.py lines 108-118). -/
def sheetActual (url source_type : String) : String :=
  if source_type = "sheets" then strReplace url "CSV:/vsicurl/" "" else url

/-- The scheme/hostname/resolution/per-address part of `validate_remote_url`
(postgres_routes.py lines 120-202), applied to the already-unwrapped
`actual_url`; `url` is the original argument, returned unchanged on
acceptance. -/
def validate_inner (env : NetEnv) (url actual_url : String) :
    Except String String :=
  if ¬ (strStartsWith actual_url "http://" ∨ strStartsWith actual_url "https://") then
    .error "URL must start with http:// or https://"
  else
    match env.hostnameOf actual_url with
    | .error _ => .error "Invalid URL format"
    | .ok none => .error "Invalid URL: missing hostname"
    | .ok (some hostname) =>
      if hostname = "" then .error "Invalid URL: missing hostname"
      else
        match env.resolve hostname with
        | .error _ => .error ("Cannot resolve hostname: " ++ hostname)
        | .ok ips =>
          match checkIps env ips with
          | some d => .error d
          | none => .ok url

/-- Embedding of `validate_remote_url(url, source_type)`
(postgres_routes.py lines 93-202).  `.error d` is the `HTTPException(400, d)`
raised by the original; `.ok` returns the URL unchanged. -/
def validate_remote_url (env : NetEnv) (url source_type : String) :
    Except String String :=
  if source_type = "sheets" ∧ ¬ strStartsWith url "CSV:/vsicurl/" then
    .error "Google Sheets URLs must use CSV:/vsicurl/https://... format"
  else
    validate_inner env url (sheetActual url source_type)

/-- Whether one resolved address triggers rejection, in the terms used by the
specification: unparseable, private, loopback, link-local, multicast, or on
the cloud-metadata deny list. -/
def ipBad (env : NetEnv) (ip_str : String) : Bool :=
  match env.ipParse ip_str with
  | none => true
  | some p =>
    p.is_private || p.is_loopback || p.is_link_local || p.is_multicast ||
      decide (ip_str ∈ cloud_metadata_ips)

/-- The specification's rejection condition for the SSRF guard, written from
the spec's words: the URL lacks an http(s) scheme or hostname, DNS resolution
fails, or some resolved address is bad (`ipBad`). -/
def ssrfRejectSpec (env : NetEnv) (actual : String) : Bool :=
  if ¬ (strStartsWith actual "http://" ∨ strStartsWith actual "https://") then true
  else
    match env.hostnameOf actual with
    | .error _ => true
    | .ok none => true
    | .ok (some h) =>
      if h = "" then true
      else
        match env.resolve h with
        | .error _ => true
        | .ok ips => ips.any (ipBad env)

theorem checkIp_eq_none_iff (env : NetEnv) (ip : String) :
    checkIp env ip = none ↔ ipBad env ip = false := by
  unfold checkIp ipBad
  cases env.ipParse ip with
  | none => simp
  | some p =>
    obtain ⟨pr, lo, ll, mc⟩ := p
    by_cases h5 : ip ∈ cloud_metadata_ips <;>
      cases pr <;> cases lo <;> cases ll <;> cases mc <;> simp [h5]

theorem checkIps_eq_none_iff (env : NetEnv) (ips : List String) :
    checkIps env ips = none ↔ ips.any (ipBad env) = false := by
  induction ips with
  | nil => simp [checkIps]
  | cons ip rest ih =>
    unfold checkIps
    cases hip : checkIp env ip with
    | some d =>
      have : ¬ ipBad env ip = false := by
        intro hfalse
        rw [← checkIp_eq_none_iff] at hfalse
        simp [hfalse] at hip
      simp only [List.any_cons, Bool.or_eq_false_iff]
      constructor
      · intro h; cases h
      · rintro ⟨h1, _⟩; exact absurd h1 this
    | none =>
      have hgood : ipBad env ip = false := (checkIp_eq_none_iff env ip).mp hip
      simp [hgood, ih]

theorem validate_inner_ok_iff (env : NetEnv) (url a : String) :
    validate_inner env url a = .ok url ↔ ssrfRejectSpec env a = false := by
  unfold validate_inner ssrfRejectSpec
  by_cases hpre : strStartsWith a "http://" = true ∨ strStartsWith a "https://" = true
  · simp only [if_neg (not_not_intro hpre)]
    cases hh : env.hostnameOf a with
    | error e => simp
    | ok oh =>
      cases oh with
      | none => simp
      | some h =>
        by_cases hemp : h = ""
        · simp [hemp]
        · simp only [if_neg hemp]
          cases hr : env.resolve h with
          | error e => simp
          | ok ips =>
            cases hc : checkIps env ips with
            | some d =>
              have : ¬ ips.any (ipBad env) = false := by
                intro hfalse
                rw [← checkIps_eq_none_iff] at hfalse
                simp [hfalse] at hc
              simp [hc, this]
            | none =>
              have := (checkIps_eq_none_iff env ips).mp hc
              simp [hc, this]
  · simp [hpre]

theorem validate_inner_ok_unchanged (env : NetEnv) (url a r : String) :
    validate_inner env url a = .ok r → r = url := by
  unfold validate_inner
  split
  · simp
  · cases hh : env.hostnameOf a with
    | error e => simp
    | ok oh =>
      cases oh with
      | none => simp
      | some h =>
        by_cases hemp : h = ""
        · simp [hemp]
        · simp only [if_neg hemp]
          cases hr : env.resolve h with
          | error e => simp
          | ok ips =>
            cases hc : checkIps env ips with
            | some d => intro hok; simp [hc] at hok
            | none => intro hok; simp [hc] at hok; exact hok.symm

/-- C2, amended: `validate_remote_url` accepts if and only if, in addition to
the spec's conditions (http(s) scheme, hostname present, DNS resolves, every
resolved address parseable and neither private, loopback, link-local,
multicast nor on the cloud-metadata deny list — checked on the inner URL
after stripping the `CSV:/vsicurl/` wrapper for `sheets` sources), a `sheets`
source carries the `CSV:/vsicurl/` prefix; an accepted URL is returned
unchanged. -/
theorem mundi_C2_validate_remote_url_amended (env : NetEnv)
    (url source_type : String) :
    (validate_remote_url env url source_type = .ok url ↔
      (¬ (source_type = "sheets" ∧ strStartsWith url "CSV:/vsicurl/" = false) ∧
        ssrfRejectSpec env (sheetActual url source_type) = false)) ∧
    (∀ r, validate_remote_url env url source_type = .ok r → r = url) := by
  constructor
  · unfold validate_remote_url
    split
    next hs => simp_all
    next hs =>
      rw [validate_inner_ok_iff]
      simp only [Bool.not_eq_true] at hs ⊢
      constructor
      · intro h; exact ⟨by simpa using hs, h⟩
      · rintro ⟨_, h⟩; exact h
  · intro r
    unfold validate_remote_url
    split
    · simp
    · exact validate_inner_ok_unchanged env url _ r

/-- A concrete network oracle: every URL parses with hostname
`example.com`, which resolves to the single public address
`93.184.216.34`. -/
def exNetEnv : NetEnv where
  hostnameOf := fun _ => .ok (some "example.com")
  resolve := fun _ => .ok ["93.184.216.34"]
  ipParse := fun _ => some ⟨false, false, false, false⟩

/-- Witness for the amended C2 theorem: a public-resolving https URL with a
non-sheets source type is accepted and returned unchanged. -/
theorem mundi_C2_amended_witness :
    validate_remote_url exNetEnv "https://example.com" "vector"
      = .ok "https://example.com" :=
  ((mundi_C2_validate_remote_url_amended exNetEnv "https://example.com" "vector").1).mpr
    ⟨by decide, by rfl⟩

/-- C2 counterexample: the URL `https://example.com` with source type
`sheets` is rejected by `validate_remote_url` even though it has an http(s)
scheme and hostname, DNS succeeds, and its only resolved address is public —
none of the claim's rejection causes hold, refuting the claimed
"rejects if and only if". -/
theorem mundi_C2_counterexample :
    validate_remote_url exNetEnv "https://example.com" "sheets" =
        .error "Google Sheets URLs must use CSV:/vsicurl/https://... format" ∧
      ssrfRejectSpec exNetEnv (sheetActual "https://example.com" "sheets") = false := by
  constructor
  · rfl
  · rfl

/-! ## Metadata extraction: `get_layer_bounds_and_metadata`
(postgres_routes.py lines 2196-2346)

The whole body runs under one `try`/`except Exception` that returns whatever
values have been computed when an exception fires.  Each fallible external
call (fiona/GDAL/pyproj) is an oracle field whose `.error`/`none` outcome is
that exception; the embedding returns the state accumulated so far at that
point, exactly as the `except` clause does. -/

/-- The values accumulated by `get_layer_bounds_and_metadata`: the local
variables `bounds`, `geometry_type`, `feature_count` and the keys it may add
to `metadata_updates`. -/
structure ExtractResult where
  bounds : Option (ℚ × ℚ × ℚ × ℚ)
  geometry_type : String
  feature_count : Option Nat
  md_feature_count : Option Nat
  md_geometry_type : Option String
  md_original_srid : Option Int
  md_raster_stats : Option (ℚ × ℚ)
  deriving Repr, DecidableEq

/-- The defaults set at lines 2210-2213: null bounds, unknown geometry,
null feature count, no metadata updates. -/
def emptyExtract : ExtractResult :=
  ⟨none, "unknown", none, none, none, none, none⟩

/-- A fiona CRS object: its `to_epsg()` result and `to_string()` rendering. -/
structure FionaCrs where
  to_epsg : Option Int
  to_string : String

/-- Oracle for one opened fiona collection: outcomes of `collection.bounds`,
`len(collection)`, the schema's geometry entry (`none` when the schema is
falsy or has no `geometry` key; `some none` when the entry itself is falsy),
the sampled first feature's geometry type (`.error` when `next(iter(...))`
raises; `none` when the feature lacks a usable geometry/type), the
collection CRS (`none` when falsy) and the pyproj corner transformer
(`.error` when `Transformer.from_crs`/`transform` raises). -/
structure FionaCollection where
  boundsE : Except Unit (ℚ × ℚ × ℚ × ℚ)
  countE : Except Unit Nat
  schemaGeom : Option (Option String)
  firstFeatureGeomType : Except Unit (Option String)
  crs : Option FionaCrs
  transform : ℚ × ℚ → Except Unit (ℚ × ℚ)

/-- Lines 2289-2291: record the geometry type in `metadata_updates` when it
is not `unknown`. -/
def mdGeomStep (s : ExtractResult) : ExtractResult :=
  if s.geometry_type ≠ "unknown" then
    { s with md_geometry_type := some s.geometry_type }
  else s

/-- Lines 2296-2298: record the CRS's EPSG code when `to_epsg()` is truthy. -/
def sridStep (crs : FionaCrs) (s : ExtractResult) : ExtractResult :=
  match crs.to_epsg with
  | some e => if e ≠ 0 then { s with md_original_srid := some e } else s
  | none => s

/-- Lines 2300-2312: reproject the two bound corners unless the CRS string
contains `EPSG:4326` or `WGS84`; a transformer exception leaves the state as
already accumulated (caught by the outer `except`). -/
def transformStep (c : FionaCollection) (crs : FionaCrs) (s : ExtractResult) :
    ExtractResult :=
  if ¬ strContains crs.to_string "EPSG:4326" ∧
      ¬ strContains crs.to_string "WGS84" ∧ s.bounds.isSome then
    match s.bounds with
    | some (x0, y0, x1, y1) =>
      match c.transform (x0, y0) with
      | .error _ => s
      | .ok (nx0, ny0) =>
        match c.transform (x1, y1) with
        | .error _ => s
        | .ok (nx1, ny1) => { s with bounds := some (nx0, ny0, nx1, ny1) }
    | none => s
  else s

/-- Lines 2289-2312: the geometry-metadata and CRS handling tail of the
vector branch. -/
def vectorCrsStep (c : FionaCollection) (s : ExtractResult) : ExtractResult :=
  match c.crs with
  | none => mdGeomStep s
  | some crs => transformStep c crs (sridStep crs (mdGeomStep s))

/-- Lines 2272-2287: schema-declared geometry type, refined by sampling the
first feature's actual type when at least one feature exists.  Returns the
final `geometry_type` string, or `none` when `next(iter(collection))`
raised (the exception aborts to the outer `except` with the schema-derived
type already assigned). -/
def geometryTypeOf (c : FionaCollection) (gOpt : Option String) (n : Nat) :
    Except String String :=
  let g1 := match gOpt with
    | none => "unknown"
    | some g => strLower g
  if n > 0 then
    match c.firstFeatureGeomType with
    | .error _ => .error g1
    | .ok ff =>
      .ok (match ff with
        | some t =>
          let tl := strLower t
          if tl ≠ "" ∧ tl ≠ "null" then tl else g1
        | none => g1)
  else .ok g1

/-- Vector branch body of `get_layer_bounds_and_metadata` for a successfully
opened collection (postgres_routes.py lines 2264-2312). -/
def extractVectorC (c : FionaCollection) : ExtractResult :=
  match c.boundsE with
  | .error _ => emptyExtract
  | .ok b =>
    let s1 : ExtractResult := { emptyExtract with bounds := some b }
    match c.countE with
    | .error _ => s1
    | .ok n =>
      let s2 := { s1 with feature_count := some n, md_feature_count := some n }
      match c.schemaGeom with
      | none => vectorCrsStep c s2
      | some gOpt =>
        match geometryTypeOf c gOpt n with
        | .error g => { s2 with geometry_type := g }
        | .ok g => vectorCrsStep c { s2 with geometry_type := g }

/-- Vector branch of `get_layer_bounds_and_metadata`: an exception from
`fiona.open` itself yields the defaults. -/
def extractVector : Except Unit FionaCollection → ExtractResult
  | .error _ => emptyExtract
  | .ok c => extractVectorC c

/-- Oracle for one GDAL raster dataset: geotransform, dimensions,
`GetProjection()` (empty string when absent), the authority EPSG code, the
corner transformer, the band count and `ComputeStatistics` outcome. -/
structure GdalDataset where
  gt : ℚ × ℚ × ℚ × ℚ × ℚ × ℚ
  width : Nat
  height : Nat
  projection : String
  authorityCode : Option Int
  transform : ℚ × ℚ → Except Unit (ℚ × ℚ)
  rasterCount : Nat
  statsE : Except Unit (ℚ × ℚ)

/-- Lines 2249-2260: exact min/max statistics for single-band rasters, with
statistics failures swallowed by their own inner `try`. -/
def rasterStatsStep (ds : GdalDataset) (s : ExtractResult) : ExtractResult :=
  if ds.rasterCount = 1 then
    match ds.statsE with
    | .ok mm => { s with md_raster_stats := some mm }
    | .error _ => s
  else s

/-- Raster branch of `get_layer_bounds_and_metadata`
(postgres_routes.py lines 2216-2262): four-corner bounds from the affine
geotransform, EPSG code recording, corner reprojection unless the projection
string contains `EPSG:4326` or `WGS84`, then single-band statistics.  A
transformer exception aborts to the outer `except` with the raw bounds
already in place and the statistics never computed. -/
def extractRaster (o : Option GdalDataset) : ExtractResult :=
  match o with
  | none => emptyExtract
  | some ds =>
    let (g0, g1, g2, g3, g4, g5) := ds.gt
    let w : ℚ := ds.width
    let h : ℚ := ds.height
    let xmin := g0
    let ymax := g3
    let xmax := g0 + w * g1 + h * g2
    let ymin := g3 + w * g4 + h * g5
    let s : ExtractResult := { emptyExtract with bounds := some (xmin, ymin, xmax, ymax) }
    if ds.projection = "" then rasterStatsStep ds s
    else
      let s := match ds.authorityCode with
        | some e => { s with md_original_srid := some e }
        | none => s
      if ¬ strContains ds.projection "EPSG:4326" ∧
          ¬ strContains ds.projection "WGS84" then
        match ds.transform (xmin, ymin) with
        | .error _ => s
        | .ok (nx0, ny0) =>
          match ds.transform (xmax, ymax) with
          | .error _ => s
          | .ok (nx1, ny1) =>
            rasterStatsStep ds { s with bounds := some (nx0, ny0, nx1, ny1) }
      else rasterStatsStep ds s

/-- Embedding of `get_layer_bounds_and_metadata(ogr_source, layer_type, ...)`
dispatching on `layer_type` (lines 2215-2346); for `point_cloud` and any
other type nothing is extracted.  Total by construction: every failure
outcome of every oracle call is mapped to the state the `except Exception`
clause would return, so no input leads anywhere but a returned
`ExtractResult`. -/
def get_layer_bounds_and_metadata (layer_type : String)
    (vec : Except Unit FionaCollection) (ras : Option GdalDataset) :
    ExtractResult :=
  if layer_type = "raster" then extractRaster ras
  else if layer_type = "vector" then extractVector vec
  else emptyExtract

/-- The well-formedness demanded of WGS84 bounds by the specification:
ordered and inside `[-180,180] × [-90,90]`. -/
def boundsWellFormed : ℚ × ℚ × ℚ × ℚ → Prop
  | (x0, y0, x1, y1) =>
    x0 ≤ x1 ∧ y0 ≤ y1 ∧ -180 ≤ x0 ∧ x1 ≤ 180 ∧ -90 ≤ y0 ∧ y1 ≤ 90

instance : DecidablePred boundsWellFormed := fun b => by
  obtain ⟨x0, y0, x1, y1⟩ := b
  unfold boundsWellFormed
  infer_instance

/-- A vector source whose collection reports CRS `EPSG:4326` and raw bounds
`(200, 95, 200, 95)` — a single point outside the valid WGS84 coordinate
range. -/
def outOfRangeCollection : FionaCollection where
  boundsE := .ok (200, 95, 200, 95)
  countE := .ok 1
  schemaGeom := some (some "Point")
  firstFeatureGeomType := .ok (some "Point")
  crs := some ⟨some 4326, "EPSG:4326"⟩
  transform := fun p => .ok p

/-- C1 counterexample: for a vector source declaring `EPSG:4326` whose data
lies at longitude 200, latitude 95, `get_layer_bounds_and_metadata` returns
those coordinates unchanged — non-null bounds outside
`[-180,180] × [-90,90]`, refuting the claimed range invariant (no validation
or clamping is performed). -/
theorem mundi_C1_counterexample :
    (get_layer_bounds_and_metadata "vector" (.ok outOfRangeCollection) none).bounds
        = some (200, 95, 200, 95) ∧
      ¬ boundsWellFormed (200, 95, 200, 95) := by
  exact ⟨by rfl, by decide⟩

theorem mdGeomStep_bounds (s : ExtractResult) : (mdGeomStep s).bounds = s.bounds := by
  unfold mdGeomStep
  split <;> rfl

theorem sridStep_bounds (crs : FionaCrs) (s : ExtractResult) :
    (sridStep crs s).bounds = s.bounds := by
  unfold sridStep
  cases crs.to_epsg with
  | none => rfl
  | some e => dsimp only []; split <;> rfl

theorem transformStep_of_recognized (c : FionaCollection) (crs : FionaCrs)
    (s : ExtractResult)
    (hrec : strContains crs.to_string "EPSG:4326" = true ∨
      strContains crs.to_string "WGS84" = true) :
    transformStep c crs s = s := by
  unfold transformStep
  rw [if_neg]
  rintro ⟨h1, h2, _⟩
  rcases hrec with h | h
  · exact h1 h
  · exact h2 h

theorem vectorCrsStep_bounds_of_recognized (c : FionaCollection) (s : ExtractResult)
    (hcrs : ∀ crs ∈ c.crs, strContains crs.to_string "EPSG:4326" = true ∨
      strContains crs.to_string "WGS84" = true) :
    (vectorCrsStep c s).bounds = s.bounds := by
  unfold vectorCrsStep
  cases hc : c.crs with
  | none => exact mdGeomStep_bounds s
  | some crs =>
    show (transformStep c crs (sridStep crs (mdGeomStep s))).bounds = s.bounds
    rw [transformStep_of_recognized c crs _ (hcrs crs (by rw [hc]; rfl))]
    rw [sridStep_bounds, mdGeomStep_bounds]

theorem extractVectorC_bounds_of_recognized (c : FionaCollection) (b : ℚ × ℚ × ℚ × ℚ)
    (hb : c.boundsE = .ok b)
    (hcrs : ∀ crs ∈ c.crs, strContains crs.to_string "EPSG:4326" = true ∨
      strContains crs.to_string "WGS84" = true) :
    (extractVectorC c).bounds = some b := by
  unfold extractVectorC
  cases h : c.boundsE with
  | error e => rw [hb] at h; exact absurd h (by simp)
  | ok b' =>
    rw [h] at hb
    injection hb with hbb
    subst hbb
    simp only []
    cases hn : c.countE with
    | error e => rfl
    | ok n =>
      simp only []
      cases hs : c.schemaGeom with
      | none =>
        simp only []
        rw [vectorCrsStep_bounds_of_recognized c _ hcrs]
      | some gOpt =>
        simp only []
        cases hg : geometryTypeOf c gOpt n with
        | error g => rfl
        | ok g =>
          simp only []
          rw [vectorCrsStep_bounds_of_recognized c _ hcrs]

/-- C1, amended: extracted non-null bounds are the source collection's bounds
passed through unvalidated (or corner-reprojected when the CRS is not
recognized as WGS84).  In particular, when the CRS string is recognized as
WGS84 the returned bounds equal the raw source bounds, so they are ordered
and inside `[-180,180] × [-90,90]` exactly when the source data is; no
check or clamp enforces the claimed invariant. -/
theorem mundi_C1_bounds_amended (c : FionaCollection) (b : ℚ × ℚ × ℚ × ℚ)
    (hb : c.boundsE = .ok b)
    (hcrs : ∀ crs ∈ c.crs, strContains crs.to_string "EPSG:4326" = true ∨
      strContains crs.to_string "WGS84" = true) :
    (get_layer_bounds_and_metadata "vector" (.ok c) none).bounds = some b ∧
      (boundsWellFormed b →
        ∀ b' ∈ (get_layer_bounds_and_metadata "vector" (.ok c) none).bounds,
          boundsWellFormed b') := by
  have hbd : (get_layer_bounds_and_metadata "vector" (.ok c) none).bounds = some b := by
    have hv : get_layer_bounds_and_metadata "vector" (.ok c) none
        = extractVectorC c := by rfl
    rw [hv]
    exact extractVectorC_bounds_of_recognized c b hb hcrs
  refine ⟨hbd, fun hwf b' hmem => ?_⟩
  rw [hbd] at hmem
  rw [Option.mem_some_iff] at hmem
  subst hmem
  exact hwf

/-- A well-behaved WGS84 vector source with in-range bounds. -/
def goodCollection : FionaCollection where
  boundsE := .ok (10, 20, 30, 40)
  countE := .ok 3
  schemaGeom := some (some "Point")
  firstFeatureGeomType := .ok (some "Point")
  crs := some ⟨some 4326, "EPSG:4326"⟩
  transform := fun p => .ok p

/-- Witness for the amended C1 theorem at a concrete WGS84 collection. -/
theorem mundi_C1_amended_witness :
    (get_layer_bounds_and_metadata "vector" (.ok goodCollection) none).bounds
        = some (10, 20, 30, 40) ∧
      (boundsWellFormed (10, 20, 30, 40) →
        ∀ b' ∈ (get_layer_bounds_and_metadata "vector" (.ok goodCollection) none).bounds,
          boundsWellFormed b') :=
  mundi_C1_bounds_amended goodCollection (10, 20, 30, 40) (by rfl)
    (by
      intro crs hc
      have : crs = ⟨some 4326, "EPSG:4326"⟩ := by
        cases hc
        rfl
      rw [this]
      exact Or.inl (by decide))

theorem transformStep_bounds_isSome (c : FionaCollection) (crs : FionaCrs)
    (s : ExtractResult) (hs : s.bounds.isSome) :
    (transformStep c crs s).bounds.isSome := by
  unfold transformStep
  split
  · cases hb : s.bounds with
    | none => rw [hb] at hs; simp at hs
    | some b =>
      obtain ⟨x0, y0, x1, y1⟩ := b
      simp only []
      cases c.transform (x0, y0) with
      | error e => exact hs
      | ok p =>
        obtain ⟨nx0, ny0⟩ := p
        simp only []
        cases c.transform (x1, y1) with
        | error e => exact hs
        | ok q => obtain ⟨nx1, ny1⟩ := q; rfl
  · exact hs

theorem vectorCrsStep_bounds_isSome (c : FionaCollection) (s : ExtractResult)
    (hs : s.bounds.isSome) : (vectorCrsStep c s).bounds.isSome := by
  unfold vectorCrsStep
  cases c.crs with
  | none => rw [mdGeomStep_bounds]; exact hs
  | some crs =>
    apply transformStep_bounds_isSome
    rw [sridStep_bounds, mdGeomStep_bounds]
    exact hs

theorem extractVectorC_bounds_none (c : FionaCollection)
    (h : (extractVectorC c).bounds = none) :
    extractVectorC c = emptyExtract := by
  unfold extractVectorC at h ⊢
  cases hb : c.boundsE with
  | error e => rfl
  | ok b =>
    exfalso
    rw [hb] at h
    simp only [] at h
    cases hn : c.countE with
    | error e => rw [hn] at h; simp at h
    | ok n =>
      rw [hn] at h
      simp only [] at h
      cases hs : c.schemaGeom with
      | none =>
        rw [hs] at h
        simp only [] at h
        have := vectorCrsStep_bounds_isSome c
          { emptyExtract with
              bounds := some b, feature_count := some n,
              md_feature_count := some n } (by simp)
        rw [h] at this
        simp at this
      | some gOpt =>
        rw [hs] at h
        simp only [] at h
        cases hg : geometryTypeOf c gOpt n with
        | error g => rw [hg] at h; simp at h
        | ok g =>
          rw [hg] at h
          simp only [] at h
          have := vectorCrsStep_bounds_isSome c
            { emptyExtract with
                bounds := some b, feature_count := some n,
                md_feature_count := some n, geometry_type := g } (by simp)
          rw [h] at this
          simp at this

/-- C7, amended: the extractor is total (every oracle outcome returns an
`ExtractResult` — each fallible call's exception is caught), and the
all-null defaults are returned exactly when the failure precedes any
computation: when opening the source fails, and whenever the returned bounds
are null every other field is at its default too.  A failure after partial
computation returns the partially filled metadata instead of nulls. -/
theorem mundi_C7_extract_amended (vec : Except Unit FionaCollection)
    (ras : Option GdalDataset) :
    get_layer_bounds_and_metadata "vector" (.error ()) ras = emptyExtract ∧
      get_layer_bounds_and_metadata "raster" vec none = emptyExtract ∧
      (∀ c, (get_layer_bounds_and_metadata "vector" (.ok c) ras).bounds = none →
        get_layer_bounds_and_metadata "vector" (.ok c) ras = emptyExtract) := by
  refine ⟨by rfl, by rfl, fun c h => ?_⟩
  have hv : get_layer_bounds_and_metadata "vector" (.ok c) ras
      = extractVectorC c := by rfl
  rw [hv] at h ⊢
  exact extractVectorC_bounds_none c h

/-- A vector source whose CRS is projected (`EPSG:32633`) and whose corner
transformer raises. -/
def failingTransformCollection : FionaCollection where
  boundsE := .ok (10, 10, 20, 20)
  countE := .ok 5
  schemaGeom := some (some "Point")
  firstFeatureGeomType := .ok (some "Point")
  crs := some ⟨some 32633, "EPSG:32633"⟩
  transform := fun _ => .error ()

/-- C7 counterexample: when the corner reprojection raises midway (the
transformer oracle errors), `get_layer_bounds_and_metadata` returns the
partially computed state — non-null (and still unreprojected) bounds,
geometry type `point` and feature count 5 — not the claimed null bounds,
unknown geometry and null feature count. -/
theorem mundi_C7_counterexample :
    failingTransformCollection.transform (10, 10) = .error () ∧
      get_layer_bounds_and_metadata "vector" (.ok failingTransformCollection) none =
        { bounds := some (10, 10, 20, 20), geometry_type := "point",
          feature_count := some 5, md_feature_count := some 5,
          md_geometry_type := some "point", md_original_srid := some 32633,
          md_raster_stats := none } := by
  exact ⟨by rfl, by rfl⟩

/-- A vector source whose `collection.bounds` read raises immediately. -/
def boundsFailCollection : FionaCollection where
  boundsE := .error ()
  countE := .ok 5
  schemaGeom := some (some "Point")
  firstFeatureGeomType := .ok (some "Point")
  crs := none
  transform := fun p => .ok p

/-- Witness for the amended C7 theorem: an open failure and an immediate
bounds failure both yield the all-null defaults. -/
theorem mundi_C7_amended_witness :
    get_layer_bounds_and_metadata "vector" (.error ()) none = emptyExtract ∧
      get_layer_bounds_and_metadata "vector" (.ok boundsFailCollection) none
        = emptyExtract :=
  ⟨(mundi_C7_extract_amended (.error ()) none).1,
   (mundi_C7_extract_amended (.error ()) none).2.2 boundsFailCollection (by rfl)⟩

/-! ## Observable effects of the ingestion pipelines

Both route bodies (`internal_upload_layer`, `add_remote_layer`) interleave
computation with externally visible actions: temporary-file lifecycle,
subprocess invocations, S3 uploads, HTTP fetches and database writes.  The
embeddings below return, next to their result, the ordered list of these
effects, from which claims about persistence, downloads and temp-file
cleanup are read off. -/

/-- One externally visible action of a pipeline run. -/
inductive Eff where
  | tmpCreate (path : String)
  | tmpDelete (path : String)
  | runCmd (cmd : List String)
  | s3Upload (key : String)
  | httpGet (url : String)
  | httpHead (url : String)
  | dbInsertLayer (layer_id : String) (layer_type : String) (feature_count : Option Nat)
  | dbInsertStyle (layer_id : String)
  | dbLinkStyle (layer_id : String)
  | dbAppendMapLayer (layer_id : String)
  | dbSetMetadataKey (k v : String)
  deriving Repr, DecidableEq

/-- The temporary files/directories still existing after a trace: created
paths minus subsequently deleted ones, in order. -/
def leftoverTmp (tr : List Eff) : List String :=
  tr.foldl (fun acc e =>
    match e with
    | .tmpCreate p => if p ∈ acc then acc else acc ++ [p]
    | .tmpDelete p => acc.filter (· ≠ p)
    | _ => acc) []

/-- Number of `map_layers` row insertions in a trace. -/
def countLayerInserts (tr : List Eff) : Nat :=
  (tr.filter fun e => match e with
    | .dbInsertLayer _ _ _ => true
    | _ => false).length

/-- Whether any resource was fetched over HTTP GET in a trace. -/
def countDownloads (tr : List Eff) : Nat :=
  (tr.filter fun e => match e with
    | .httpGet _ => true
    | _ => false).length

/-- An `HTTPException(status_code, detail)`. -/
structure HErr where
  code : Nat
  detail : String
  deriving Repr, DecidableEq

/-! ## CSV coordinate-column detection (postgres_routes.py lines 1294-1326) -/

/-- The accepted X column names (line 1303). -/
def xColumnNames : List String := ["lon", "long", "longitude", "lng", "x"]

/-- The accepted Y column names (line 1311). -/
def yColumnNames : List String := ["lat", "latitude", "y"]

/-- `normalized = {h.strip().lower(): h for h in header}` followed by
`normalized[col]`: the original spelling of the last header cell whose
stripped, lower-cased form equals `col`; `none` when no cell matches. -/
def normalizedLookup (header : List String) (col : String) : Option String :=
  (header.reverse).find? fun h => strLower (strStrip h) = col

/-- `detected_x` (lines 1300-1307): first accepted X name present. -/
def detected_x (header : List String) : Option String :=
  (xColumnNames.findSome? fun col => normalizedLookup header col)

/-- `detected_y` (lines 1308-1315): first accepted Y name present. -/
def detected_y (header : List String) : Option String :=
  (yColumnNames.findSome? fun col => normalizedLookup header col)

/-- The upload route's missing-coordinate-columns error detail
(lines 1317-1326). -/
def csvColumnsMsg : String :=
  "CSV header must include longitude and latitude columns. Accepted names (case-insensitive): X: lon, long, longitude, lng, x; Y: lat, latitude, y."

/-- The `ogr2ogr` invocation for an uploaded CSV (lines 1328-1344):
FlatGeobuf output, detected column options, spatial index, CRS forced to
EPSG:4326. -/
def uploadCsvOgrCmd (aux src dx dy : String) : List String :=
  ["ogr2ogr", "-if", "CSV", "-f", "FlatGeobuf", aux, src,
   "-oo", "X_POSSIBLE_NAMES=" ++ dx,
   "-oo", "Y_POSSIBLE_NAMES=" ++ dy,
   "-lco", "SPATIAL_INDEX=YES",
   "-a_srs", "EPSG:4326"]

/-- The `ogr2ogr` invocation for an uploaded KML (lines 1394-1402). -/
def kmlOgrCmd (aux src : String) : List String :=
  ["ogr2ogr", "-f", "FlatGeobuf", aux, src, "-lco", "SPATIAL_INDEX=YES"]

/-- The `ogr2ogr` invocation of `add_remote_layer` (lines 1991-2018):
CSV sources get the coordinate-name options, EPSG:4326 and a spatial index;
other sources get a spatial index only when geometry was detected. -/
def remoteOgrCmd (aux src : String) (isCsvSrc hasGeom : Bool) : List String :=
  ["ogr2ogr", "-overwrite", "-f", "FlatGeobuf", aux, src] ++
    (if isCsvSrc then
      ["-oo", "X_POSSIBLE_NAMES=lon,long,longitude,lng,x",
       "-oo", "Y_POSSIBLE_NAMES=lat,latitude,y",
       "-oo", "KEEP_GEOM_COLUMNS=NO",
       "-a_srs", "EPSG:4326",
       "-lco", "SPATIAL_INDEX=YES"]
    else if hasGeom then ["-lco", "SPATIAL_INDEX=YES"]
    else [])

/-- The remote conversion-failure error detail (lines 2040-2044). -/
def remoteConvertFailMsg : String :=
  "Failed to convert remote file to optimized format. Please check that the URL is accessible and contains valid geospatial data."

/-! ## PMTiles generation: `generate_pmtiles_from_ogr_source`
(postgres_routes.py lines 2349-2470) -/

/-- The reprojection `ogr2ogr` invocation (lines 2366-2390); note its CSV
branch names `long,longitude,lng,x` — without `lon`. -/
def pmtilesOgrCmd (ogr_source reprojected : String) : List String :=
  ["ogr2ogr", "-f", "FlatGeobuf", "-t_srs", "EPSG:4326",
   "-nlt", "PROMOTE_TO_MULTI", "-skipfailures"] ++
    (if strStartsWith ogr_source "CSV:" then
      ["-oo", "X_POSSIBLE_NAMES=long,longitude,lng,x",
       "-oo", "Y_POSSIBLE_NAMES=lat,latitude,y",
       "-oo", "KEEP_GEOM_COLUMNS=NO"]
    else []) ++ [reprojected, ogr_source]

/-- The tippecanoe invocation (lines 2404-2420): `-zg` only with at least
two features (the single-location fallback). -/
def tippecanoeCmd (out reprojected : String) (feature_count : Nat) : List String :=
  ["tippecanoe", "-o", out, "-q"] ++
    (if feature_count > 1 then ["-zg"] else []) ++
    ["--drop-densest-as-needed", reprojected]

/-- Outcomes of the two subprocesses run by the PMTiles generator. -/
structure PmtilesEnv where
  reprojectOk : Bool
  tippecanoeOk : Bool

/-- Embedding of `generate_pmtiles_from_ogr_source` (lines 2349-2470):
reproject to EPSG:4326, tile with tippecanoe, upload, record the key in the
layer's metadata.  The `TemporaryDirectory` context removes its directory on
every exit path; subprocess failures raise (`.error`). -/
def generate_pmtiles (env : PmtilesEnv) (layer_id ogr_source : String)
    (feature_count : Nat) (user_id project_id : Option String) :
    Except Unit String × List Eff :=
  let temp_dir := "pmtiles_tmp"
  let out := temp_dir ++ "/layer_" ++ layer_id ++ ".pmtiles"
  let reprojected := temp_dir ++ "/reprojected.fgb"
  let tr0 := [Eff.tmpCreate temp_dir, Eff.runCmd (pmtilesOgrCmd ogr_source reprojected)]
  if ¬ env.reprojectOk then
    (.error (), tr0 ++ [Eff.tmpDelete temp_dir])
  else
    let tr1 := tr0 ++ [Eff.runCmd (tippecanoeCmd out reprojected feature_count)]
    if ¬ env.tippecanoeOk then
      (.error (), tr1 ++ [Eff.tmpDelete temp_dir])
    else
      let pmtiles_key := match user_id, project_id with
        | some u, some p => "pmtiles/" ++ u ++ "/" ++ p ++ "/" ++ layer_id ++ ".pmtiles"
        | _, _ => "pmtiles/layer/" ++ layer_id ++ ".pmtiles"
      (.ok pmtiles_key,
        tr1 ++ [Eff.s3Upload pmtiles_key,
          Eff.dbSetMetadataKey "pmtiles_key" pmtiles_key,
          Eff.tmpDelete temp_dir])

/-- Result of `process_vector_layer_common` (lines 2473-2535). -/
structure VectorProcessResult where
  bounds : Option (ℚ × ℚ × ℚ × ℚ)
  geometry_type : String
  feature_count : Option Nat
  info : ExtractResult
  pmtiles_key : Option String
  hasStyle : Bool
  deriving Repr, DecidableEq

/-- Embedding of `process_vector_layer_common`: extract metadata, generate
PMTiles when the feature count is truthy and positive (a generation failure
is caught and ingestion continues without PMTiles), prepare a MapLibre style
when the geometry type is known.  Never raises. -/
def process_vector_layer_common (vec : Except Unit FionaCollection)
    (penv : PmtilesEnv) (layer_id : String) (ogr_source : String)
    (user_id project_id : String) : VectorProcessResult × List Eff :=
  let info := extractVector vec
  let (pm, tr) :=
    match info.feature_count with
    | some n =>
      if n > 0 then
        match generate_pmtiles penv layer_id ogr_source n (some user_id) (some project_id) with
        | (.ok k, t) => (some k, t)
        | (.error _, t) => (none, t)
      else (none, [])
    | none => (none, [])
  ({ bounds := info.bounds, geometry_type := info.geometry_type,
     feature_count := info.feature_count, info := info, pmtiles_key := pm,
     hasStyle := info.geometry_type ≠ "unknown" }, tr)

/-! ## Remote ingestion: `add_remote_layer`
(postgres_routes.py lines 1789-2193) -/

/-- Python `s.endswith(suf)`. -/
def strEndsWith (s suf : String) : Bool :=
  suf.data.isSuffixOf s.data

/-- Scheme characters accepted by `urllib.parse`. -/
def isSchemeChar (c : Char) : Bool :=
  ('a' ≤ c ∧ c ≤ 'z') ∨ ('A' ≤ c ∧ c ≤ 'Z') ∨ ('0' ≤ c ∧ c ≤ '9') ∨
    c = '+' ∨ c = '-' ∨ c = '.'

/-- Strip a leading `scheme:` when present (as `urllib.parse.urlparse`
does before splitting the remainder). -/
def dropScheme (u : String) : String :=
  let cs := u.data
  let pre := cs.takeWhile (· ≠ ':')
  if pre.length < cs.length ∧ pre ≠ [] ∧
      (('a' ≤ pre.headD ' ' ∧ pre.headD ' ' ≤ 'z') ∨
        ('A' ≤ pre.headD ' ' ∧ pre.headD ' ' ≤ 'Z')) ∧
      pre.all isSchemeChar then
    String.mk (cs.drop (pre.length + 1))
  else u

/-- `urllib.parse.urlparse(u).path`: drop the scheme, drop the
`//authority` when present, cut query and fragment. -/
def urlPathOf (u : String) : String :=
  let r := (dropScheme u).data
  let path := if r.take 2 = ['/', '/'] then (r.drop 2).dropWhile (· ≠ '/') else r
  String.mk ((path.takeWhile (· ≠ '#')).takeWhile (· ≠ '?'))

/-- The raster extensions of the classifier (lines 1251 and 1862). -/
def raster_exts : List String := [".tif", ".tiff", ".jpg", ".jpeg", ".png", ".dem"]

/-- `request.url.startswith("CSV:")` (line 1851). -/
def remoteIsCsv (url : String) : Bool := strStartsWith url "CSV:"

/-- The WFS marker test of lines 1895-1898: `SERVICE=WFS` and
`REQUEST=GETFEATURE` both occur in the upper-cased URL. -/
def remoteIsWfs (url : String) : Bool :=
  strContains (strUpper url) "SERVICE=WFS" ∧ strContains (strUpper url) "REQUEST=GETFEATURE"

/-- The ESRI service test of lines 1937-1939. -/
def remoteIsEsri (url : String) : Bool :=
  (strContains url "/FeatureServer" ∨ strContains url "/MapServer") ∧
    strContains url "/query"

/-- Layer-type classification of `add_remote_layer` (lines 1850-1868):
`CSV:` sources are vector; otherwise the lower-cased `pathlib` suffix of the
URL path picks raster for raster extensions and vector for everything
else. -/
def remoteLayerType (url : String) : String :=
  if remoteIsCsv url then "vector"
  else if strLower (pathSuffix (urlPathOf url)) ∈ raster_exts then "raster"
  else "vector"

/-- The source-format checks of lines 1817-1845; `none` means the checks
pass. -/
def remoteAsserts (url source_type : String) : Option HErr :=
  if source_type = "sheets" then none
  else if source_type = "vector" then
    if strStartsWith url "WFS:" then none
    else if strStartsWith url "http" then none
    else some ⟨400, "Invalid vector source URL format: " ++ url⟩
  else if source_type = "raster" then
    if strStartsWith url "http" then none
    else some ⟨400, "Raster sources must be HTTP URLs, got: " ++ url⟩
  else some ⟨400, "Unsupported source type: " ++ source_type⟩

/-- The `file_ext` of the source-setup chain (lines 1925-1947): `.csv` for
`CSV:` sources, `.gml` for WFS, `.geojson` for ESRI services, otherwise the
`os.path.splitext` extension of the URL path (not lower-cased there). -/
def remoteFileExt (url : String) : String :=
  if remoteIsCsv url then ".csv"
  else if remoteIsWfs url then ".gml"
  else if remoteIsEsri url then ".geojson"
  else splitextExt (urlPathOf url)

/-- Name of the temporary file the downloaded body is written to
(line 1948). -/
def dlTempName (url : String) : String :=
  "dl" ++ splitextExt (urlPathOf url)

/-- The OGR source handed to conversion/processing (lines 1925-1952). -/
def remoteOgrSource (url : String) : String :=
  if remoteIsCsv url then url
  else if remoteIsWfs url then url
  else if remoteIsEsri url then "ESRIJSON:" ++ url
  else dlTempName url

/-- Download phase of `add_remote_layer` (lines 1874-1916 and 1943-1952):
`CSV:` sources get only a HEAD probe of the inner URL; WFS sources are not
fetched; everything else is fetched whole with GET (a non-200 status is a
400 rejection) and written to a local temporary file. -/
def remoteDownload (getStatus : Nat) (url : String) : Option HErr × List Eff :=
  if remoteIsCsv url then
    (none, [.httpHead (strReplace url "CSV:/vsicurl/" "")])
  else if remoteIsWfs url then
    (none, [])
  else
    if getStatus ≠ 200 then
      (some ⟨400, "Unable to download remote file: HTTP error"⟩, [.httpGet url])
    else
      (none, [.httpGet url, .tmpCreate (dlTempName url)])

/-- The geometry probe of lines 1956-1980, reported by fiona on the
not-yet-converted source: schema has a geometry entry, feature count, and
whether the first feature carries a real (non-null) geometry. -/
structure ProbeInfo where
  schemaHasGeom : Bool
  count : Nat
  firstHasRealGeom : Bool

/-- `has_geometry` (lines 1956-1980): `True` by default (also when the
probe raises); `False` when the schema lacks geometry, the collection is
empty, or the first feature has no usable geometry. -/
def remoteHasGeometry (probe : Except Unit ProbeInfo) : Bool :=
  match probe with
  | .error _ => true
  | .ok p =>
    if ¬ p.schemaHasGeom then false
    else if p.count > 0 then p.firstHasRealGeom
    else false

/-- Oracle for one `add_remote_layer` run. -/
structure RemoteEnv where
  net : NetEnv
  getStatus : Nat
  probe : Except Unit ProbeInfo
  convertOk : Bool
  vec : Except Unit FionaCollection
  ras : Option GdalDataset
  pmtiles : PmtilesEnv

/-- Response of `add_remote_layer` (lines 2184-2192). -/
structure RemoteResp where
  id : String
  name : String
  type : String
  url : String
  message : String
  deriving Repr, DecidableEq

/-- The layer URL construction of lines 2177-2182. -/
def remoteLayerUrl (layer_type layer_id : String) : String :=
  "/api/layer/" ++ layer_id ++ (if layer_type = "vector" then ".pmtiles" else ".cog.tif")

/-- The conversion-and-persistence branch of `add_remote_layer`
(lines 1955-2175), entered only for vector layers whose file extension is
not `.fgb`: probe geometry, convert to FlatGeobuf (failure: 400, with no
cleanup `finally` attached yet), then inside `try ... finally` run the
shared vector pipeline, insert the layer row, create/link a style when the
geometry type is known, optionally append the layer to the map, and delete
the conversion temp files (the `finally` deletes `temp_file_path` — by then
reassigned to the conversion output — and the conversion output itself; the
originally downloaded file is no longer referenced by either). -/
def remoteVectorBranch (env : RemoteEnv) (url _name : String)
    (add_layer_to_map : Bool) (user_id project_id layer_id : String)
    (file_ext src : String) : Except HErr VectorProcessResult × List Eff :=
  let isCsvSrc := file_ext = ".csv" ∨ remoteIsCsv url
  let hasGeom :=
    if file_ext ≠ ".csv" ∧ ¬ remoteIsCsv url then remoteHasGeometry env.probe
    else true
  let aux := "aux.fgb"
  let tr0 := [Eff.tmpCreate aux, Eff.tmpDelete aux,
    Eff.runCmd (remoteOgrCmd aux src isCsvSrc hasGeom)]
  if ¬ env.convertOk then
    (.error ⟨400, remoteConvertFailMsg⟩, tr0)
  else
    let tr1 := tr0 ++ [Eff.tmpCreate aux]
    let (vres, tr2) := process_vector_layer_common env.vec env.pmtiles layer_id aux
      user_id project_id
    let tr3 := [Eff.dbInsertLayer layer_id "vector" vres.feature_count] ++
      (if vres.geometry_type ≠ "unknown" then
        [Eff.dbInsertStyle layer_id, Eff.dbLinkStyle layer_id] else []) ++
      (if add_layer_to_map then [Eff.dbAppendMapLayer layer_id] else [])
    let tr4 := [Eff.tmpDelete aux, Eff.tmpDelete aux]
    (.ok vres, tr1 ++ tr2 ++ tr3 ++ tr4)

/-- Embedding of `add_remote_layer` (postgres_routes.py lines 1789-2193).
After SSRF validation, source-type checks, classification and download, the
entire metadata-extraction / database-insertion / style / map-association
block sits inside `if layer_type == "vector" and file_ext != ".fgb"`; for
every other combination the endpoint skips it entirely and still returns a
success response. -/
def add_remote_layer (env : RemoteEnv) (url name source_type : String)
    (add_layer_to_map : Bool) (user_id project_id layer_id : String) :
    Except HErr RemoteResp × List Eff :=
  match validate_remote_url env.net url source_type with
  | .error d => (.error ⟨400, d⟩, [])
  | .ok _ =>
    match remoteAsserts url source_type with
    | some e => (.error e, [])
    | none =>
      let layer_type := remoteLayerType url
      match remoteDownload env.getStatus url with
      | (some e, tr) => (.error e, tr)
      | (none, tr) =>
        let file_ext := remoteFileExt url
        let src := remoteOgrSource url
        if layer_type = "vector" ∧ file_ext ≠ ".fgb" then
          match remoteVectorBranch env url name add_layer_to_map user_id
              project_id layer_id file_ext src with
          | (.error e, tr2) => (.error e, tr ++ tr2)
          | (.ok _, tr2) =>
            (.ok ⟨layer_id, name, layer_type, remoteLayerUrl layer_type layer_id,
              "Remote layer processed and added successfully"⟩, tr ++ tr2)
        else
          (.ok ⟨layer_id, name, layer_type, remoteLayerUrl layer_type layer_id,
            "Remote layer processed and added successfully"⟩, tr)

/-- A concrete remote-ingestion oracle: public DNS resolution, HTTP 200,
geometry probe and metadata extraction both raising (degraded defaults),
conversions succeeding. -/
def exRemoteEnv : RemoteEnv where
  net := exNetEnv
  getStatus := 200
  probe := .error ()
  convertOk := true
  vec := .error ()
  ras := none
  pmtiles := ⟨true, true⟩

/-- C5: evaluation of `add_remote_layer` at the failing inputs.  A remote
`.tif` URL is classified raster, its body is fetched whole with GET and
written to a local temporary file (materialized locally, not wrapped as a
remote virtual path), no layer row is inserted, and a success response is
returned; a remote `.pmtiles` URL is classified plain vector (not
cloud-native), is downloaded, and the FlatGeobuf conversion step is invoked
on it rather than skipped. -/
theorem mundi_C5_cloud_native_bug :
    (add_remote_layer exRemoteEnv "https://example.com/cogtif.tif" "T" "raster"
        true "u" "p" "L1").1 =
      .ok ⟨"L1", "T", "raster", "/api/layer/L1.cog.tif",
        "Remote layer processed and added successfully"⟩ ∧
    (add_remote_layer exRemoteEnv "https://example.com/cogtif.tif" "T" "raster"
        true "u" "p" "L1").2 =
      [.httpGet "https://example.com/cogtif.tif", .tmpCreate "dl.tif"] ∧
    countLayerInserts (add_remote_layer exRemoteEnv "https://example.com/cogtif.tif"
      "T" "raster" true "u" "p" "L1").2 = 0 ∧
    remoteLayerType "https://a.b/test.pmtiles" = "vector" ∧
    Eff.tmpCreate "dl.pmtiles" ∈
      (add_remote_layer exRemoteEnv "https://a.b/test.pmtiles" "P" "vector"
        true "u" "p" "L2").2 ∧
    Eff.runCmd (remoteOgrCmd "aux.fgb" "dl.pmtiles" false true) ∈
      (add_remote_layer exRemoteEnv "https://a.b/test.pmtiles" "P" "vector"
        true "u" "p" "L2").2 := by
  refine ⟨by rfl, by rfl, by rfl, by rfl, ?_, ?_⟩
  · rw [show (add_remote_layer exRemoteEnv "https://a.b/test.pmtiles" "P" "vector"
        true "u" "p" "L2").2 =
      [.httpGet "https://a.b/test.pmtiles", .tmpCreate "dl.pmtiles",
       .tmpCreate "aux.fgb", .tmpDelete "aux.fgb",
       .runCmd (remoteOgrCmd "aux.fgb" "dl.pmtiles" false true),
       .tmpCreate "aux.fgb", .dbInsertLayer "L2" "vector" none,
       .dbAppendMapLayer "L2", .tmpDelete "aux.fgb", .tmpDelete "aux.fgb"] from rfl]
    simp
  · rw [show (add_remote_layer exRemoteEnv "https://a.b/test.pmtiles" "P" "vector"
        true "u" "p" "L2").2 =
      [.httpGet "https://a.b/test.pmtiles", .tmpCreate "dl.pmtiles",
       .tmpCreate "aux.fgb", .tmpDelete "aux.fgb",
       .runCmd (remoteOgrCmd "aux.fgb" "dl.pmtiles" false true),
       .tmpCreate "aux.fgb", .dbInsertLayer "L2" "vector" none,
       .dbAppendMapLayer "L2", .tmpDelete "aux.fgb", .tmpDelete "aux.fgb"] from rfl]
    simp

/-- C10 counterexample: a URL whose path ends in `.tif` but whose query
carries WFS GetFeature markers is classified raster and hits the skip
branch, yet is **not** downloaded (the WFS test matches before the download),
refuting the claim's "downloads the resource" for every raster URL; the
endpoint still inserts nothing and answers success. -/
theorem mundi_C10_counterexample :
    remoteLayerType "http://h/x.tif?SERVICE=WFS&REQUEST=GETFEATURE" = "raster" ∧
    add_remote_layer exRemoteEnv "http://h/x.tif?SERVICE=WFS&REQUEST=GETFEATURE"
        "W" "raster" true "u" "p" "L3" =
      (.ok ⟨"L3", "W", "raster", "/api/layer/L3.cog.tif",
        "Remote layer processed and added successfully"⟩, []) := by
  exact ⟨by rfl, by rfl⟩

theorem add_remote_skip_aux (env : RemoteEnv) (url name source_type : String)
    (add_layer_to_map : Bool) (user_id project_id layer_id : String)
    (hok : validate_remote_url env.net url source_type = .ok url)
    (hassert : remoteAsserts url source_type = none)
    (hskip : remoteLayerType url = "raster" ∨
      (remoteLayerType url = "vector" ∧ remoteFileExt url = ".fgb"))
    (hdl : remoteIsCsv url = false → remoteIsWfs url = false → env.getStatus = 200) :
    add_remote_layer env url name source_type add_layer_to_map user_id project_id
        layer_id =
      (.ok ⟨layer_id, name, remoteLayerType url,
        remoteLayerUrl (remoteLayerType url) layer_id,
        "Remote layer processed and added successfully"⟩,
       (remoteDownload env.getStatus url).2) ∧
      countLayerInserts (remoteDownload env.getStatus url).2 = 0 ∧
      (∀ l, Eff.dbAppendMapLayer l ∉ (remoteDownload env.getStatus url).2) ∧
      (remoteIsCsv url = false → remoteIsWfs url = false →
        Eff.httpGet url ∈ (remoteDownload env.getStatus url).2) := by
  have hcond : ¬ (remoteLayerType url = "vector" ∧ remoteFileExt url ≠ ".fgb") := by
    rcases hskip with h | ⟨h1, h2⟩
    · rintro ⟨hv, _⟩; rw [h] at hv; exact absurd hv (by decide)
    · rintro ⟨_, hne⟩; exact hne h2
  have hdlres : (remoteDownload env.getStatus url).1 = none ∧
      (countLayerInserts (remoteDownload env.getStatus url).2 = 0 ∧
        (∀ l, Eff.dbAppendMapLayer l ∉ (remoteDownload env.getStatus url).2) ∧
        (remoteIsCsv url = false → remoteIsWfs url = false →
          Eff.httpGet url ∈ (remoteDownload env.getStatus url).2)) := by
    unfold remoteDownload
    by_cases hcsv : remoteIsCsv url = true
    · simp [hcsv, countLayerInserts]
    · have hcsv' : remoteIsCsv url = false := by
        cases h : remoteIsCsv url
        · rfl
        · exact absurd h hcsv
      by_cases hwfs : remoteIsWfs url = true
      · simp [hcsv', hwfs, countLayerInserts]
      · have hwfs' : remoteIsWfs url = false := by
          cases h : remoteIsWfs url
          · rfl
          · exact absurd h hwfs
        have h200 := hdl hcsv' hwfs'
        simp [hcsv', hwfs', h200, countLayerInserts]
  constructor
  · unfold add_remote_layer
    rw [hok, hassert]
    have hpair : remoteDownload env.getStatus url =
        (none, (remoteDownload env.getStatus url).2) := by
      rw [← hdlres.1]
    rw [hpair]
    simp only [if_neg hcond]
  · exact hdlres.2

/-- C10, amended: for every remote URL classified as raster and every remote
vector URL already ending in `.fgb`, `add_remote_layer` creates no layer
record, adds nothing to the map, and still returns a success response whose
layer URL refers to the never-persisted layer id; the resource is downloaded
whenever the URL is not `CSV:`-prefixed and carries no WFS GetFeature
markers (a raster-classified URL with such markers is not fetched at
all). -/
theorem mundi_C10_skip_branch_amended (env : RemoteEnv)
    (url name source_type : String) (add_layer_to_map : Bool)
    (user_id project_id layer_id : String)
    (hok : validate_remote_url env.net url source_type = .ok url)
    (hassert : remoteAsserts url source_type = none)
    (hskip : remoteLayerType url = "raster" ∨
      (remoteLayerType url = "vector" ∧ remoteFileExt url = ".fgb"))
    (hdl : remoteIsCsv url = false → remoteIsWfs url = false → env.getStatus = 200) :
    add_remote_layer env url name source_type add_layer_to_map user_id project_id
        layer_id =
      (.ok ⟨layer_id, name, remoteLayerType url,
        remoteLayerUrl (remoteLayerType url) layer_id,
        "Remote layer processed and added successfully"⟩,
       (remoteDownload env.getStatus url).2) ∧
      countLayerInserts (remoteDownload env.getStatus url).2 = 0 ∧
      (∀ l, Eff.dbAppendMapLayer l ∉ (remoteDownload env.getStatus url).2) ∧
      (remoteIsCsv url = false → remoteIsWfs url = false →
        Eff.httpGet url ∈ (remoteDownload env.getStatus url).2) :=
  add_remote_skip_aux env url name source_type add_layer_to_map user_id project_id
    layer_id hok hassert hskip hdl

/-- Witness for the amended C10 theorem: a plain remote `.tif` URL is
skipped but downloaded. -/
theorem mundi_C10_amended_witness :
    add_remote_layer exRemoteEnv "https://example.com/cogtif.tif" "T" "raster"
        true "u" "p" "L9" =
      (.ok ⟨"L9", "T", "raster", "/api/layer/L9.cog.tif",
        "Remote layer processed and added successfully"⟩,
       [.httpGet "https://example.com/cogtif.tif", .tmpCreate "dl.tif"]) ∧
      countLayerInserts [Eff.httpGet "https://example.com/cogtif.tif",
        Eff.tmpCreate "dl.tif"] = 0 := by
  have h := mundi_C10_skip_branch_amended exRemoteEnv "https://example.com/cogtif.tif"
    "T" "raster" true "u" "p" "L9" (by rfl) (by rfl) (Or.inl (by rfl))
    (fun _ _ => rfl)
  refine ⟨?_, ?_⟩
  · exact h.1
  · exact h.2.1

/-! ## COG building: `get_layer_cog_tif`
(layer_router.py lines 76-241) -/

/-- Oracle for one `get_layer_cog_tif` request: the layer row's fields and
the outcome of each external call (S3 download, `gdalinfo` band probe,
`gdalwarp` reprojection, `gdal_translate -expand rgb`, the final
`gdal_translate -of COG`). -/
structure CogEnv where
  layer_type : String
  remote_url : Option String
  metadata_cog_key : Option String
  has_stats : Bool
  gdalinfoBands : Except Unit Nat
  warpOk : Bool
  rgbOk : Bool
  cogOk : Bool

/-- What the build branch produced: which input file fed the final COG
translation, whether the output is tagged for client-side color ramping,
and the full final command. -/
structure CogBuild where
  inputUsed : String
  colorRamp : Bool
  cogCmd : List String
  deriving Repr, DecidableEq

/-- Response of `get_layer_cog_tif`. -/
inductive CogResult where
  | err (code : Nat) (detail : String)
  | redirect (url : String)
  | served (cog_key : String) (build : Option CogBuild)
  deriving Repr, DecidableEq

/-- The warp command (lines 134-142). -/
def gdalwarpCmd (input output : String) : List String :=
  ["gdalwarp", "-t_srs", "EPSG:3857", "-r", "bilinear", input, output]

/-- The RGB expansion command (lines 162-170); note it reads the original
downloaded file, not the reprojected one. -/
def rgbCmd (input output : String) : List String :=
  ["gdal_translate", "-of", "GTiff", "-expand", "rgb", input, output]

/-- The final COG translation command (lines 181-204): `Float32` plus
lossless LZW when tagged for color ramping, lossy JPEG otherwise. -/
def cogTranslateCmd (needs_color_ramp : Bool) (input output : String) :
    List String :=
  ["gdal_translate", "-of", "COG", "-co", "BLOCKSIZE=256"] ++
    (if needs_color_ramp then ["-ot", "Float32", "-co", "COMPRESS=LZW"]
     else ["-co", "COMPRESS=JPEG", "-co", "QUALITY=85"]) ++
    ["-co", "OVERVIEWS=AUTO", input, output]

/-- Embedding of `get_layer_cog_tif` (layer_router.py lines 76-266 up to
range serving): reject non-raster layers; 302-redirect remote layers whose
URL ends in `.tif`; otherwise build the COG lazily when no `cog_key` is
cached — reprojection failure falls back to the original file, RGB-expansion
failure for single-band rasters falls back to single-band output tagged for
color ramping when min/max statistics exist, and a successful build uploads
under `cog/layer/{id}.cog.tif` and caches that key in layer metadata. -/
def get_layer_cog_tif (env : CogEnv) (layer_id : String) :
    CogResult × List Eff :=
  if env.layer_type ≠ "raster" then
    (.err 400 "Layer is not a raster type. COG can only be generated from raster data.", [])
  else if (match env.remote_url with
      | some u => strEndsWith u ".tif"
      | none => false) then
    (.redirect ((env.remote_url).getD ""), [])
  else
    match env.metadata_cog_key with
    | some k => (.served k none, [])
    | none =>
      let temp_dir := "cogtmp"
      let local_input := temp_dir ++ "/layer_" ++ layer_id ++ ".tif"
      let local_cog := temp_dir ++ "/layer_" ++ layer_id ++ ".cog.tif"
      let reprojected := temp_dir ++ "/layer_" ++ layer_id ++ "_3857.tif"
      let local_rgb := temp_dir ++ "/layer_" ++ layer_id ++ "_rgb.tif"
      let tr0 := [Eff.tmpCreate temp_dir,
        Eff.runCmd ["gdalinfo", "-json", local_input]]
      match env.gdalinfoBands with
      | .error _ =>
        (.err 500 ("Failed to process raster info for layer " ++ layer_id ++ "."),
          tr0 ++ [Eff.tmpDelete temp_dir])
      | .ok num_bands =>
        let tr1 := tr0 ++ [Eff.runCmd (gdalwarpCmd local_input reprojected)]
        let input1 := if env.warpOk then reprojected else local_input
        let (needs_color_ramp, input2, tr2) :=
          if num_bands = 1 then
            if env.rgbOk then
              (false, local_rgb, tr1 ++ [Eff.runCmd (rgbCmd local_input local_rgb)])
            else
              (if env.has_stats then true else false, input1,
                tr1 ++ [Eff.runCmd (rgbCmd local_input local_rgb)])
          else (false, input1, tr1)
        let cogCmd := cogTranslateCmd needs_color_ramp input2 local_cog
        let tr3 := tr2 ++ [Eff.runCmd cogCmd]
        if ¬ env.cogOk then
          (.err 500 "COG generation failed", tr3 ++ [Eff.tmpDelete temp_dir])
        else
          let cog_key := "cog/layer/" ++ layer_id ++ ".cog.tif"
          (.served cog_key (some ⟨input2, needs_color_ramp, cogCmd⟩),
            tr3 ++ [Eff.s3Upload cog_key,
              Eff.dbSetMetadataKey "cog_key" cog_key,
              Eff.tmpDelete temp_dir])

/-- C8: during a lazy COG build of a single-band raster (non-remote layer,
no cached key, band probe succeeds, final translation succeeds), neither a
failed reprojection nor a failed RGB expansion surfaces an error: the result
is always a served COG under `cog/layer/{id}.cog.tif` with that key written
to metadata.  When RGB expansion fails and min/max statistics exist, the
output is single-band, tagged for client-side color ramping, and compressed
with lossless LZW at Float32; when RGB expansion succeeds the input is the
expanded RGB file and compression is lossy JPEG; when reprojection also
failed the single-band fallback reads the original unprojected file. -/
theorem mundi_C8_cog_fallbacks (env : CogEnv) (layer_id : String)
    (hraster : env.layer_type = "raster")
    (hremote : env.remote_url = none)
    (hkey : env.metadata_cog_key = none)
    (hbands : env.gdalinfoBands = .ok 1)
    (hcog : env.cogOk = true) :
    ∃ b, (get_layer_cog_tif env layer_id).1 =
        .served ("cog/layer/" ++ layer_id ++ ".cog.tif") (some b) ∧
      Eff.dbSetMetadataKey "cog_key" ("cog/layer/" ++ layer_id ++ ".cog.tif") ∈
        (get_layer_cog_tif env layer_id).2 ∧
      (env.rgbOk = false → env.has_stats = true →
        b.colorRamp = true ∧ "COMPRESS=LZW" ∈ b.cogCmd ∧ "Float32" ∈ b.cogCmd ∧
        b.inputUsed = (if env.warpOk then "cogtmp/layer_" ++ layer_id ++ "_3857.tif"
          else "cogtmp/layer_" ++ layer_id ++ ".tif")) ∧
      (env.rgbOk = true →
        b.colorRamp = false ∧ "COMPRESS=JPEG" ∈ b.cogCmd ∧
        b.inputUsed = "cogtmp/layer_" ++ layer_id ++ "_rgb.tif") ∧
      (env.warpOk = false → env.rgbOk = false → env.has_stats = true →
        b.inputUsed = "cogtmp/layer_" ++ layer_id ++ ".tif") := by
  unfold get_layer_cog_tif
  rw [hremote, hkey, hbands]
  simp only [hraster, if_neg (by simp : ¬ ("raster" : String) ≠ "raster")]
  rw [hcog]
  cases hrgb : env.rgbOk with
  | true =>
    refine ⟨_, rfl, ?_, ?_, ?_, ?_⟩
    · simp [cogTranslateCmd]
    · intro h; cases h
    · intro _
      refine ⟨rfl, ?_, rfl⟩
      simp [cogTranslateCmd]
    · intro _ h; cases h
  | false =>
    cases hstats : env.has_stats with
    | true =>
      cases hwarp : env.warpOk with
      | true =>
        refine ⟨_, rfl, ?_, ?_, ?_, ?_⟩
        · simp [cogTranslateCmd]
        · intro _ _
          refine ⟨rfl, ?_, ?_, by simp [hwarp]⟩ <;> simp [cogTranslateCmd]
        · intro h; cases h
        · intro h; exact absurd h (by decide)
      | false =>
        refine ⟨_, rfl, ?_, ?_, ?_, ?_⟩
        · simp [cogTranslateCmd]
        · intro _ _
          refine ⟨rfl, ?_, ?_, by simp [hwarp]⟩ <;> simp [cogTranslateCmd]
        · intro h; cases h
        · intro _ _ _; rfl
    | false =>
      cases hwarp : env.warpOk with
      | true =>
        refine ⟨_, rfl, ?_, ?_, ?_, ?_⟩
        · simp [cogTranslateCmd]
        · intro _ h; cases h
        · intro h; cases h
        · intro h; exact absurd h (by decide)
      | false =>
        refine ⟨_, rfl, ?_, ?_, ?_, ?_⟩
        · simp [cogTranslateCmd]
        · intro _ h; cases h
        · intro h; cases h
        · intro _ _ h; cases h

/-- A concrete COG oracle: single-band raster with statistics, failed
reprojection, failed RGB expansion, successful final translation. -/
def exCogEnv : CogEnv where
  layer_type := "raster"
  remote_url := none
  metadata_cog_key := none
  has_stats := true
  gdalinfoBands := .ok 1
  warpOk := false
  rgbOk := false
  cogOk := true

/-- Witness for the C8 theorem: with both fallbacks taken, a tagged
single-band LZW COG is still served and its key cached. -/
theorem mundi_C8_cog_fallbacks_witness :
    ∃ b, (get_layer_cog_tif exCogEnv "L1").1 =
        .served "cog/layer/L1.cog.tif" (some b) ∧
      Eff.dbSetMetadataKey "cog_key" "cog/layer/L1.cog.tif" ∈
        (get_layer_cog_tif exCogEnv "L1").2 ∧
      (exCogEnv.rgbOk = false → exCogEnv.has_stats = true →
        b.colorRamp = true ∧ "COMPRESS=LZW" ∈ b.cogCmd ∧ "Float32" ∈ b.cogCmd ∧
        b.inputUsed = (if exCogEnv.warpOk then "cogtmp/layer_L1_3857.tif"
          else "cogtmp/layer_L1.tif")) ∧
      (exCogEnv.rgbOk = true →
        b.colorRamp = false ∧ "COMPRESS=JPEG" ∈ b.cogCmd ∧
        b.inputUsed = "cogtmp/layer_L1_rgb.tif") ∧
      (exCogEnv.warpOk = false → exCogEnv.rgbOk = false →
        exCogEnv.has_stats = true → b.inputUsed = "cogtmp/layer_L1.tif") :=
  mundi_C8_cog_fallbacks exCogEnv "L1" (by rfl) (by rfl) (by rfl) (by rfl) (by rfl)

/-! ## Upload ingestion: `internal_upload_layer`
(postgres_routes.py lines 1227-1786)

The uploaded bytes live in a `NamedTemporaryFile` whose context manager
deletes the original temporary file on every exit path; conversion outputs
(`temp_file_path + ".fgb"`, extracted directories) follow the explicit
cleanup the code performs — or doesn't. -/

/-- State of the format-normalization phase: the current working file, its
extension, the S3 key, the temp directory awaiting the end-of-function
cleanup, point-cloud bounds, and the `original_format` metadata value. -/
structure NormState where
  temp_path : String
  file_ext : String
  s3_key : String
  temp_dir : Option String
  pcBounds : Option (ℚ × ℚ × ℚ × ℚ)
  original_format : Option String
  deriving Repr, DecidableEq

/-- What `laspy` reads from a point-cloud header, and the pyproj transform
to WGS84. -/
structure LaspyInfo where
  hasCrs : Bool
  mins : ℚ × ℚ × ℚ
  maxs : ℚ × ℚ × ℚ
  transform : ℚ × ℚ → ℚ × ℚ

/-- Oracle for one `internal_upload_layer` run.  `kmzResult`/`zipResult`
model the `src.utils` helpers `process_kmz_to_kml`/`process_zip_with_shapefile`
(whose module is not part of this snapshot) at their call interface:
`.error true` is the `ValueError` (no KML / no shapefile in the archive),
`.error false` any other exception, `.ok` success with an extracted
directory. -/
structure UploadEnv where
  csvHeader : List String
  csvConvertOk : Bool
  kmzResult : Except Bool Unit
  kmlConvertOk : Bool
  zipResult : Except Bool Unit
  las : LaspyInfo
  las2lasCreated : Bool
  lasinfoOk : Bool
  s3Ok : Bool
  vec : Except Unit FionaCollection
  ras : Option GdalDataset
  pmtiles : PmtilesEnv

/-- Response of `internal_upload_layer` (lines 1783-1786). -/
structure UploadResp where
  id : String
  type : String
  url : String
  deriving Repr, DecidableEq

/-- CSV branch (lines 1291-1368): detect the coordinate columns
case-insensitively in the header; missing columns are a 400 rejection;
otherwise convert to FlatGeobuf with EPSG:4326 and a spatial index.  The
produced `.fgb` is not deleted anywhere in the function. -/
def uploadCsvBranch (env : UploadEnv) (orig aux : String)
    (user_id project_id layer_id : String) : Except HErr NormState × List Eff :=
  match detected_x env.csvHeader, detected_y env.csvHeader with
  | some dx, some dy =>
    let tr := [Eff.runCmd (uploadCsvOgrCmd aux orig dx dy)]
    if env.csvConvertOk then
      (.ok ⟨aux, ".fgb",
        "uploads/" ++ user_id ++ "/" ++ project_id ++ "/" ++ layer_id ++ ".fgb",
        none, none, some "csv"⟩, tr ++ [Eff.tmpCreate aux])
    else
      (.error ⟨400, "Failed to convert CSV to spatial format, make sure CSV has a column named lat/lon/long/lng, latitude/longitude, or x/y."⟩, tr)
  | _, _ => (.error ⟨400, csvColumnsMsg⟩, [])

/-- KML/KMZ branch (lines 1369-1434): extract the KML from a KMZ first
(`ValueError`: 400, other: 500), convert to FlatGeobuf, clean the extraction
directory in `finally`.  The `original_format` comparison runs after
`file_ext` was already reassigned to `.fgb`, so it always records `kmz`. -/
def uploadKmlBranch (env : UploadEnv) (isKmz : Bool) (orig aux : String)
    (user_id project_id layer_id : String) : Except HErr NormState × List Eff :=
  let kmzdir := "kmzdir"
  let srcR : Except HErr (String × List Eff) :=
    if isKmz then
      match env.kmzResult with
      | .error true => .error ⟨400, "KMZ file does not contain any KML files"⟩
      | .error false => .error ⟨500, "Error processing KMZ file"⟩
      | .ok _ => .ok (kmzdir ++ "/doc.kml", [Eff.tmpCreate kmzdir])
    else .ok (orig, [])
  match srcR with
  | .error e => (.error e, [])
  | .ok (src, tr0) =>
    let tr1 := tr0 ++ [Eff.runCmd (kmlOgrCmd aux src)]
    let cleanup := if isKmz then [Eff.tmpDelete kmzdir] else []
    if env.kmlConvertOk then
      let file_ext := ".fgb"
      (.ok ⟨aux, file_ext,
        "uploads/" ++ user_id ++ "/" ++ project_id ++ "/" ++ layer_id ++ ".fgb",
        none, none, some (if file_ext = ".kml" then "kml" else "kmz")⟩,
        tr1 ++ [Eff.tmpCreate aux] ++ cleanup)
    else
      (.error ⟨400, "Failed to convert KML/KMZ to spatial format. Please check that the file is valid."⟩,
        tr1 ++ cleanup)

/-- ZIP branch (lines 1436-1480): scan for shapefiles and convert to
GeoPackage in a fresh directory.  Neither error path removes an extraction
directory here (on failure the helper never returned one). -/
def uploadZipBranch (env : UploadEnv) (st : NormState)
    (map_id uuidStr : String) : Except HErr NormState × List Eff :=
  match env.zipResult with
  | .error true => (.error ⟨400, "ZIP file does not contain any shapefiles"⟩, [])
  | .error false => (.error ⟨500, "Error processing ZIP file"⟩, [])
  | .ok _ =>
    (.ok { st with
      temp_path := "zipdir/converted.gpkg", file_ext := ".gpkg",
      s3_key := "uploads/" ++ map_id ++ "/" ++ uuidStr ++ ".gpkg",
      temp_dir := some "zipdir", original_format := some "shapefile_zip" },
      [Eff.tmpCreate "zipdir"])

/-- The `las2las64` invocation (lines 1524-1534). -/
def las2lasCmd (input output : String) : List String :=
  ["las2las64", "-i", input, "-set_version", "1.3", "-proj_epsg", "4326", "-o", output]

/-- Point-cloud branch (lines 1481-1563): a missing embedded CRS is a 400
rejection; header bounds are corner-transformed to WGS84; the reprojected
LAZ is produced in a fresh `mkdtemp` directory and validated with
`lasinfo64` — on either failure the raised exception propagates with the
directory never removed. -/
def uploadPcBranch (env : UploadEnv) (orig : String) (st : NormState) :
    Except HErr NormState × List Eff :=
  if ¬ env.las.hasCrs then
    (.error ⟨400, "Point cloud file (.las, .laz) does not have a CRS, which is required to display on the map"⟩, [])
  else
    let (minx, miny, _) := env.las.mins
    let (maxx, maxy, _) := env.las.maxs
    let (minLon, minLat) := env.las.transform (minx, miny)
    let (maxLon, maxLat) := env.las.transform (maxx, maxy)
    let pcdir := "pcdir"
    let out := pcdir ++ "/4326.laz"
    let tr0 := [Eff.tmpCreate pcdir, Eff.runCmd (las2lasCmd orig out)]
    if ¬ env.las2lasCreated then
      (.error ⟨500, "las2las did not create output file"⟩, tr0)
    else
      let tr1 := tr0 ++ [Eff.runCmd ["lasinfo64", out]]
      if ¬ env.lasinfoOk then
        (.error ⟨500, "Output file validation failed"⟩, tr1)
      else
        (.ok { st with
          temp_path := out, temp_dir := some pcdir,
          pcBounds := some (minLon, minLat, maxLon, maxLat) }, tr1)

/-- Inline raster metadata extraction of `internal_upload_layer`
(lines 1573-1634).  Unlike the shared extractor, nothing catches a pyproj
exception here: a failing corner transform propagates out of the route. -/
def uploadRasterMeta (o : Option GdalDataset) : Except Unit ExtractResult :=
  match o with
  | none => .ok emptyExtract
  | some ds =>
    let (g0, g1, g2, g3, g4, g5) := ds.gt
    let w : ℚ := ds.width
    let h : ℚ := ds.height
    let xmin := g0
    let ymax := g3
    let xmax := g0 + w * g1 + h * g2
    let ymin := g3 + w * g4 + h * g5
    let s : ExtractResult := { emptyExtract with bounds := some (xmin, ymin, xmax, ymax) }
    let s := if ds.projection ≠ "" then
      match ds.authorityCode with
      | some e => { s with md_original_srid := some e }
      | none => s
    else s
    if ds.projection ≠ "" ∧ ¬ strContains ds.projection "EPSG:4326" ∧
        ¬ strContains ds.projection "WGS84" then
      match ds.transform (xmin, ymin) with
      | .error _ => .error ()
      | .ok (nx0, ny0) =>
        match ds.transform (xmax, ymax) with
        | .error _ => .error ()
        | .ok (nx1, ny1) =>
          .ok (rasterStatsStep ds { s with bounds := some (nx0, ny0, nx1, ny1) })
    else .ok (rasterStatsStep ds s)

/-- Layer-type inference of the upload route (lines 1249-1259). -/
def uploadLayerType (rawExt : String) : String :=
  if rawExt ∈ raster_exts then "raster"
  else if rawExt ∈ [".las", ".laz"] then "point_cloud"
  else "vector"

/-- Body of `internal_upload_layer` inside the `NamedTemporaryFile` context
(lines 1281-1786): format normalization, S3 upload, metadata extraction,
row insertion, optional map association, style creation and PMTiles
generation for vector layers.  The row insertion is unconditional — there
is no empty-dataset rejection; a zero feature count merely skips PMTiles. -/
def uploadBody (env : UploadEnv) (filename : String) (add_layer_to_map : Bool)
    (user_id project_id map_id layer_id uuidStr : String) :
    Except HErr UploadResp × List Eff :=
  let rawExt := strLower (splitextExt filename)
  let layer_type := uploadLayerType rawExt
  let extForKey := if layer_type = "vector" ∧ rawExt = "" then ".geojson" else rawExt
  let s3_key0 := "uploads/" ++ user_id ++ "/" ++ project_id ++ "/" ++ layer_id ++ extForKey
  let orig := "orig" ++ rawExt
  let aux := orig ++ ".fgb"
  let tr0 := [Eff.tmpCreate orig]
  let (normR, trN) :=
    if rawExt = ".csv" then
      uploadCsvBranch env orig aux user_id project_id layer_id
    else if rawExt = ".kml" ∨ rawExt = ".kmz" then
      uploadKmlBranch env (rawExt = ".kmz") orig aux user_id project_id layer_id
    else
      (.ok (⟨orig, rawExt, s3_key0, none, none, none⟩ : NormState), [])
  match normR with
  | .error e => (.error e, tr0 ++ trN)
  | .ok st1 =>
    let (norm2R, trZ) :=
      if strLower st1.file_ext = ".zip" then uploadZipBranch env st1 map_id uuidStr
      else if layer_type = "point_cloud" then uploadPcBranch env orig st1
      else (.ok st1, [])
    match norm2R with
    | .error e => (.error e, tr0 ++ trN ++ trZ)
    | .ok st2 =>
      let trU := tr0 ++ trN ++ trZ ++ [Eff.s3Upload st2.s3_key]
      if ¬ env.s3Ok then (.error ⟨500, "S3 upload failed"⟩, trU)
      else
        let metaR : Except Unit ExtractResult :=
          if layer_type = "raster" then uploadRasterMeta env.ras
          else if layer_type = "point_cloud" then .ok emptyExtract
          else .ok (extractVector env.vec)
        match metaR with
        | .error _ => (.error ⟨500, "raster metadata transform raised"⟩, trU)
        | .ok info =>
          let feature_count := info.feature_count
          let trI := trU ++
            [Eff.dbInsertLayer layer_id layer_type feature_count] ++
            (if add_layer_to_map then [Eff.dbAppendMapLayer layer_id] else [])
          let layer_url := "/api/layer/" ++ layer_id ++
            (if layer_type = "vector" then ".pmtiles" else ".cog.tif")
          let resp : UploadResp := ⟨layer_id, layer_type, layer_url⟩
          let trC := match st2.temp_dir with
            | some d => [Eff.tmpDelete d]
            | none => []
          if layer_type = "vector" ∧ info.geometry_type ≠ "" then
            let trS := trI ++ [Eff.dbInsertStyle layer_id, Eff.dbLinkStyle layer_id]
            match feature_count with
            | some n =>
              if n > 0 then
                match generate_pmtiles env.pmtiles layer_id st2.temp_path n
                    (some user_id) (some project_id) with
                | (.error _, tp) =>
                  (.error ⟨500, "PMTiles generation failed"⟩, trS ++ tp)
                | (.ok k, tp) =>
                  (.ok resp, trS ++ tp ++ [Eff.dbSetMetadataKey "pmtiles_key" k] ++ trC)
              else (.ok resp, trS ++ trC)
            | none => (.ok resp, trS ++ trC)
          else (.ok resp, trI ++ trC)

/-- Embedding of `internal_upload_layer`: the body runs inside the
`NamedTemporaryFile` context manager, which removes the original temporary
file on every exit path, successful or raising. -/
def internal_upload_layer (env : UploadEnv) (filename : String)
    (add_layer_to_map : Bool) (user_id project_id map_id layer_id uuidStr : String) :
    Except HErr UploadResp × List Eff :=
  let orig := "orig" ++ strLower (splitextExt filename)
  let (r, tr) := uploadBody env filename add_layer_to_map user_id project_id
    map_id layer_id uuidStr
  (r, tr ++ [Eff.tmpDelete orig])

/-- A fiona view of an empty GeoJSON FeatureCollection: zero features,
degenerate bounds, schema geometry `Unknown`, CRS WGS84. -/
def emptyFcCollection : FionaCollection where
  boundsE := .ok (0, 0, 0, 0)
  countE := .ok 0
  schemaGeom := some (some "Unknown")
  firstFeatureGeomType := .ok none
  crs := some ⟨some 4326, "EPSG:4326"⟩
  transform := fun p => .ok p

/-- Upload oracle for an empty-GeoJSON upload: every external call
succeeds, the collection is `emptyFcCollection`. -/
def exUploadEnvEmpty : UploadEnv where
  csvHeader := []
  csvConvertOk := true
  kmzResult := .ok ()
  kmlConvertOk := true
  zipResult := .ok ()
  las := ⟨true, (0, 0, 0), (0, 0, 0), fun p => p⟩
  las2lasCreated := true
  lasinfoOk := true
  s3Ok := true
  vec := .ok emptyFcCollection
  ras := none
  pmtiles := ⟨true, true⟩

/-- C3: evaluation at the failing input.  Uploading
`{"type":"FeatureCollection","features":[]}` as `empty.geojson` is **not**
rejected: `internal_upload_layer` returns success, inserts exactly one
`map_layers` row with `feature_count = 0`, adds it to the map and creates a
style; the zero count merely skips PMTiles generation.  The repository's own
`test_empty_upload.py` expects HTTP 400 with a detail containing
"contains no features" and no layer creation. -/
theorem mundi_C3_empty_dataset_bug :
    internal_upload_layer exUploadEnvEmpty "empty.geojson" true "u" "p" "M1" "L1" "uu" =
      (.ok ⟨"L1", "vector", "/api/layer/L1.pmtiles"⟩,
       [.tmpCreate "orig.geojson", .s3Upload "uploads/u/p/L1.geojson",
        .dbInsertLayer "L1" "vector" (some 0), .dbAppendMapLayer "L1",
        .dbInsertStyle "L1", .dbLinkStyle "L1", .tmpDelete "orig.geojson"]) ∧
    countLayerInserts
      (internal_upload_layer exUploadEnvEmpty "empty.geojson" true "u" "p" "M1"
        "L1" "uu").2 = 1 := by
  exact ⟨by rfl, by rfl⟩

/-- A fiona view of the converted multi-sublayer KML fixture (six sublayers
flattened by `ogr2ogr` into one FlatGeobuf). -/
def kmlCollection : FionaCollection where
  boundsE := .ok (-123, 36, -121, 38)
  countE := .ok 24
  schemaGeom := some (some "Unknown")
  firstFeatureGeomType := .ok (some "Point")
  crs := some ⟨some 4326, "EPSG:4326"⟩
  transform := fun p => .ok p

/-- Upload oracle for a KML upload with every external call succeeding. -/
def exUploadEnvKml : UploadEnv where
  csvHeader := []
  csvConvertOk := true
  kmzResult := .ok ()
  kmlConvertOk := true
  zipResult := .ok ()
  las := ⟨true, (0, 0, 0), (0, 0, 0), fun p => p⟩
  las2lasCreated := true
  lasinfoOk := true
  s3Ok := true
  vec := .ok kmlCollection
  ras := none
  pmtiles := ⟨true, true⟩

/-- C4: evaluation at the failing input.  Uploading a multi-sublayer KML
runs a single `ogr2ogr` conversion to one FlatGeobuf and inserts exactly
**one** `map_layers` row — there is no per-sublayer expansion anywhere in
`internal_upload_layer`, while the repository's `test_kml_samples.py`
expects six layer records for the six-sublayer fixture. -/
theorem mundi_C4_kml_single_layer_bug :
    countLayerInserts
      (internal_upload_layer exUploadEnvKml "KML_Samples.kml" true "u" "p" "M1"
        "L1" "uu").2 = 1 ∧
    (internal_upload_layer exUploadEnvKml "KML_Samples.kml" true "u" "p" "M1"
      "L1" "uu").1 = .ok ⟨"L1", "vector", "/api/layer/L1.pmtiles"⟩ ∧
    Eff.runCmd (kmlOgrCmd "orig.kml.fgb" "orig.kml") ∈
      (internal_upload_layer exUploadEnvKml "KML_Samples.kml" true "u" "p" "M1"
        "L1" "uu").2 := by
  refine ⟨by rfl, by rfl, ?_⟩
  rw [show (internal_upload_layer exUploadEnvKml "KML_Samples.kml" true "u" "p"
      "M1" "L1" "uu").2 =
    [.tmpCreate "orig.kml", .runCmd (kmlOgrCmd "orig.kml.fgb" "orig.kml"),
     .tmpCreate "orig.kml.fgb", .s3Upload "uploads/u/p/L1.fgb",
     .dbInsertLayer "L1" "vector" (some 24), .dbAppendMapLayer "L1",
     .dbInsertStyle "L1", .dbLinkStyle "L1",
     .tmpCreate "pmtiles_tmp",
     .runCmd (pmtilesOgrCmd "orig.kml.fgb" "pmtiles_tmp/reprojected.fgb"),
     .runCmd (tippecanoeCmd "pmtiles_tmp/layer_L1.pmtiles"
       "pmtiles_tmp/reprojected.fgb" 24),
     .s3Upload "pmtiles/u/p/L1.pmtiles",
     .dbSetMetadataKey "pmtiles_key" "pmtiles/u/p/L1.pmtiles",
     .tmpDelete "pmtiles_tmp",
     .dbSetMetadataKey "pmtiles_key" "pmtiles/u/p/L1.pmtiles",
     .tmpDelete "orig.kml"] from rfl]
  simp

theorem notMem_leftover_after_delete (tr : List Eff) (p : String) :
    p ∉ leftoverTmp (tr ++ [.tmpDelete p]) := by
  unfold leftoverTmp
  rw [List.foldl_append]
  simp only [List.foldl_cons, List.foldl_nil]
  intro hmem
  rw [List.mem_filter] at hmem
  simp at hmem

/-- C9, amended: the primary upload temporary file (the
`NamedTemporaryFile` holding the uploaded bytes) is removed on **every**
exit path of `internal_upload_layer`, success or failure — but that is the
only cleanup guarantee; conversion outputs are not covered (see the
counterexample). -/
theorem mundi_C9_original_tmp_always_deleted (env : UploadEnv)
    (filename : String) (add_layer_to_map : Bool)
    (user_id project_id map_id layer_id uuidStr : String) :
    ("orig" ++ strLower (splitextExt filename)) ∉
      leftoverTmp (internal_upload_layer env filename add_layer_to_map user_id
        project_id map_id layer_id uuidStr).2 := by
  have h : (internal_upload_layer env filename add_layer_to_map user_id
      project_id map_id layer_id uuidStr).2 =
      (uploadBody env filename add_layer_to_map user_id project_id map_id
        layer_id uuidStr).2 ++
        [Eff.tmpDelete ("orig" ++ strLower (splitextExt filename))] := by
    rfl
  rw [h]
  exact notMem_leftover_after_delete _ _

/-- A fiona view of a successfully converted five-point CSV. -/
def csvOkCollection : FionaCollection where
  boundsE := .ok (1, 1, 2, 2)
  countE := .ok 5
  schemaGeom := some (some "Point")
  firstFeatureGeomType := .ok (some "Point")
  crs := some ⟨some 4326, "EPSG:4326"⟩
  transform := fun p => .ok p

/-- Upload oracle for a CSV upload whose tippecanoe run fails. -/
def exUploadEnvCsvLeak : UploadEnv where
  csvHeader := ["lon", "lat"]
  csvConvertOk := true
  kmzResult := .ok ()
  kmlConvertOk := true
  zipResult := .ok ()
  las := ⟨true, (0, 0, 0), (0, 0, 0), fun p => p⟩
  las2lasCreated := true
  lasinfoOk := true
  s3Ok := true
  vec := .ok csvOkCollection
  ras := none
  pmtiles := ⟨true, false⟩

/-- C9 counterexample: a CSV upload whose PMTiles generation fails raises
out of the ingestion call with the converted `.fgb` conversion output still
on disk — an intermediate temporary file surviving the call, refuting
"no intermediate temporary files remain" (nothing in the function ever
deletes the auxiliary `.fgb`, on failure or success). -/
theorem mundi_C9_counterexample :
    (internal_upload_layer exUploadEnvCsvLeak "points.csv" true "u" "p" "M1"
        "L1" "uu").1 = .error ⟨500, "PMTiles generation failed"⟩ ∧
      leftoverTmp (internal_upload_layer exUploadEnvCsvLeak "points.csv" true
        "u" "p" "M1" "L1" "uu").2 = ["orig.csv.fgb"] := by
  exact ⟨by rfl, by rfl⟩

theorem normalizedLookup_isSome (header : List String) (col : String) :
    (normalizedLookup header col).isSome = true ↔
      ∃ h ∈ header, strLower (strStrip h) = col := by
  unfold normalizedLookup
  rw [List.find?_isSome]
  constructor
  · rintro ⟨h, hmem, hp⟩
    exact ⟨h, List.mem_reverse.mp hmem, by simpa using hp⟩
  · rintro ⟨h, hmem, hp⟩
    exact ⟨h, List.mem_reverse.mpr hmem, by simpa using hp⟩

theorem findSome?_lookup_isSome (header : List String) (cols : List String) :
    (cols.findSome? (normalizedLookup header)).isSome = true ↔
      ∃ col ∈ cols, (normalizedLookup header col).isSome = true := by
  induction cols with
  | nil => simp [List.findSome?]
  | cons c cs ih =>
    rw [List.findSome?_cons]
    cases hc : normalizedLookup header c with
    | some v =>
      simp only [Option.isSome_some, true_iff]
      exact ⟨c, by simp, by rw [hc]; rfl⟩
    | none =>
      rw [ih]
      constructor
      · rintro ⟨col, hmem, hs⟩
        exact ⟨col, by simp [hmem], hs⟩
      · rintro ⟨col, hmem, hs⟩
        rcases List.mem_cons.mp hmem with rfl | hmem'
        · rw [hc] at hs; cases hs
        · exact ⟨col, hmem', hs⟩

theorem detected_x_isSome_iff (header : List String) :
    (detected_x header).isSome = true ↔
      ∃ h ∈ header, strLower (strStrip h) ∈ xColumnNames := by
  unfold detected_x
  rw [findSome?_lookup_isSome]
  constructor
  · rintro ⟨col, hcol, hs⟩
    obtain ⟨h, hmem, heq⟩ := (normalizedLookup_isSome header col).mp hs
    exact ⟨h, hmem, heq ▸ hcol⟩
  · rintro ⟨h, hmem, hin⟩
    exact ⟨strLower (strStrip h), hin,
      (normalizedLookup_isSome header _).mpr ⟨h, hmem, rfl⟩⟩

theorem detected_y_isSome_iff (header : List String) :
    (detected_y header).isSome = true ↔
      ∃ h ∈ header, strLower (strStrip h) ∈ yColumnNames := by
  unfold detected_y
  rw [findSome?_lookup_isSome]
  constructor
  · rintro ⟨col, hcol, hs⟩
    obtain ⟨h, hmem, heq⟩ := (normalizedLookup_isSome header col).mp hs
    exact ⟨h, hmem, heq ▸ hcol⟩
  · rintro ⟨h, hmem, hin⟩
    exact ⟨strLower (strStrip h), hin,
      (normalizedLookup_isSome header _).mpr ⟨h, hmem, rfl⟩⟩

/-- C6, amended.  Uploaded CSVs: the X column is recognized,
case-insensitively on the stripped header cells, exactly when some cell's
lower-cased form is one of `lon, long, longitude, lng, x` (likewise Y with
`lat, latitude, y`); a missing column rejects the upload with the
missing-coordinate-columns message before any conversion; when both are
present the conversion command forces `EPSG:4326` and builds a spatial
index.  Remote CSVs: no header check is performed — the same candidate
names, EPSG:4326 and a spatial index are passed to the converter as
options, and a conversion failure surfaces as the generic remote-conversion
error, not a missing-coordinate-columns error. -/
theorem mundi_C6_csv_columns_amended (header : List String) (env : UploadEnv)
    (renv : RemoteEnv) (orig aux src url name : String) (addMap : Bool)
    (uid pid lid : String) :
    ((detected_x header).isSome = true ↔
      ∃ h ∈ header, strLower (strStrip h) ∈ xColumnNames) ∧
    ((detected_y header).isSome = true ↔
      ∃ h ∈ header, strLower (strStrip h) ∈ yColumnNames) ∧
    (detected_x env.csvHeader = none ∨ detected_y env.csvHeader = none →
      uploadCsvBranch env orig aux uid pid lid = (.error ⟨400, csvColumnsMsg⟩, [])) ∧
    (∀ dx dy, detected_x env.csvHeader = some dx → detected_y env.csvHeader = some dy →
      Eff.runCmd (uploadCsvOgrCmd aux orig dx dy) ∈
        (uploadCsvBranch env orig aux uid pid lid).2 ∧
      "EPSG:4326" ∈ uploadCsvOgrCmd aux orig dx dy ∧
      "SPATIAL_INDEX=YES" ∈ uploadCsvOgrCmd aux orig dx dy ∧
      "X_POSSIBLE_NAMES=" ++ dx ∈ uploadCsvOgrCmd aux orig dx dy ∧
      "Y_POSSIBLE_NAMES=" ++ dy ∈ uploadCsvOgrCmd aux orig dx dy) ∧
    ("X_POSSIBLE_NAMES=lon,long,longitude,lng,x" ∈ remoteOgrCmd aux src true true ∧
      "Y_POSSIBLE_NAMES=lat,latitude,y" ∈ remoteOgrCmd aux src true true ∧
      "EPSG:4326" ∈ remoteOgrCmd aux src true true ∧
      "SPATIAL_INDEX=YES" ∈ remoteOgrCmd aux src true true) ∧
    (renv.convertOk = false →
      (remoteVectorBranch renv url name addMap uid pid lid ".csv" src).1 =
        .error ⟨400, remoteConvertFailMsg⟩) := by
  refine ⟨detected_x_isSome_iff header, detected_y_isSome_iff header, ?_, ?_, ?_, ?_⟩
  · intro hmiss
    unfold uploadCsvBranch
    rcases hmiss with h | h
    · rw [h]
    · rw [h]
      cases detected_x env.csvHeader <;> rfl
  · intro dx dy hdx hdy
    refine ⟨?_, by simp [uploadCsvOgrCmd], by simp [uploadCsvOgrCmd],
      by simp [uploadCsvOgrCmd], by simp [uploadCsvOgrCmd]⟩
    unfold uploadCsvBranch
    rw [hdx, hdy]
    cases env.csvConvertOk <;> simp
  · exact ⟨by simp [remoteOgrCmd], by simp [remoteOgrCmd],
      by simp [remoteOgrCmd], by simp [remoteOgrCmd]⟩
  · intro hfail
    unfold remoteVectorBranch
    rw [hfail]
    rfl

/-- Witness for the amended C6 theorem: headers `Longitude`/`Latitude` are
recognized; a header without either X or Y name is rejected with the
column message. -/
theorem mundi_C6_amended_witness :
    ((detected_x ["Longitude", "Latitude"]).isSome = true ↔
      ∃ h ∈ ["Longitude", "Latitude"], strLower (strStrip h) ∈ xColumnNames) ∧
    (detected_x ["Longitude", "Latitude"]).isSome = true ∧
    uploadCsvBranch exUploadEnvEmpty "orig.csv" "orig.csv.fgb" "u" "p" "L1" =
      (.error ⟨400, csvColumnsMsg⟩, []) := by
  refine ⟨(mundi_C6_csv_columns_amended ["Longitude", "Latitude"] exUploadEnvEmpty
    exRemoteEnv "orig.csv" "aux" "src" "url" "n" true "u" "p" "L1").1, by rfl, ?_⟩
  exact (mundi_C6_csv_columns_amended [] exUploadEnvEmpty exRemoteEnv "orig.csv"
    "orig.csv.fgb" "src" "url" "n" true "u" "p" "L1").2.2.1 (Or.inl (by rfl))

/-- A remote oracle whose FlatGeobuf conversion fails. -/
def exRemoteEnvNoConvert : RemoteEnv where
  net := exNetEnv
  getStatus := 200
  probe := .error ()
  convertOk := false
  vec := .error ()
  ras := none
  pmtiles := ⟨true, true⟩

/-- C6 counterexample: a remote Google-Sheets CSV whose conversion fails is
rejected with the generic remote-conversion message — the remote path never
inspects the header and has no missing-coordinate-columns error, refuting
the claim's "for every CSV source, uploaded or remote, ... fails with a
missing-coordinate-columns error". -/
theorem mundi_C6_counterexample :
    (add_remote_layer exRemoteEnvNoConvert
        "CSV:/vsicurl/https://example.com/sheet.csv" "S" "sheets" true "u" "p"
        "L4").1 = .error ⟨400, remoteConvertFailMsg⟩ ∧
      remoteConvertFailMsg ≠ csvColumnsMsg := by
  exact ⟨by rfl, by decide⟩

example : remoteLayerType "https://example.com/cogtif.tif" = "raster" := by rfl
example : remoteFileExt "https://example.com/cogtif.tif" = ".tif" := by rfl
example : remoteLayerType "https://a.b/test_fixture_1.pmtiles" = "vector" := by rfl
example : remoteFileExt "https://a.b/test.pmtiles" = ".pmtiles" := by rfl
example : remoteLayerType "http://h/x.tif?SERVICE=WFS&REQUEST=GETFEATURE" = "raster" := by rfl
example : remoteIsWfs "http://h/x.tif?SERVICE=WFS&REQUEST=GETFEATURE" = true := by rfl
example : remoteIsWfs "https://example.com/cogtif.tif" = false := by rfl
example : detected_x ["Longitude", "Latitude"] = some "Longitude" := by rfl
example : detected_y ["Longitude", "Latitude"] = some "Latitude" := by rfl
example : detected_x ["a", "b"] = none := by rfl
example : splitextExt "KML_Samples.kml" = ".kml" := by rfl
example : pathSuffix "/x.tif" = ".tif" := by rfl
example : strUpper "service=wfs" = "SERVICE=WFS" := by rfl
example : urlPathOf "https://example.com/cogtif.tif" = "/cogtif.tif" := by rfl
example : dlTempName "https://example.com/cogtif.tif" = "dl.tif" := by rfl

end Mundi
